import Mathlib

/-! # Aircraft maintenance log analyzer: store and detail view

A shallow embedding of the client-side state container
(`frontend/src/context/MaintenanceLogContext.js`) and of the derived-value
helpers, edit-buffer handlers and save handler of the detail view
(`frontend/src/components/LogDisplay.js`), followed by theorems about them.

Conventions of the embedding:

* a JavaScript scalar is a `JSValue`; on this type strict equality and the
  `SameValueZero` comparison used by `Set` both coincide with Lean equality;
* a network call is an oracle: a `Backend` gives, for each endpoint, the response
  the operation receives (`Except.ok data`) or the rejection (`Except.error msg`);
* an `async` operation returns the store state after all of its dispatches together
  with how its promise settled (`Settled`); the three loading operations are embedded
  as runs (`FetchRun`) that also keep the store state committed before the `await`,
  the state the store is in while the request is in flight;
* `dispatch` applies `maintenanceLogReducer` to the state, in program order;
* an expression that throws evaluates to `Except.error`; an array property that is
  absent or null is `none`;
* a built-in string function (`toLowerCase`, `trim`, `encodeURIComponent`) is a
  parameter of the function that calls it;
* the zoom level is a rational number: every value the handlers reach from 1 is a
  multiple of 0.25 between 0.5 and 3, on which the arithmetic of the source is exact.
-/

namespace MaintenanceLog

/-! ## Data model -/

/-- Scalar JavaScript values carried by record fields. -/
inductive JSValue where
  | undefined
  | null
  | bool (b : Bool)
  | number (n : Int)
  | string (s : String)
  deriving DecidableEq, Repr

/-- JavaScript truthiness (`ToBoolean`) of a scalar. -/
def JSValue.truthy : JSValue → Bool
  | .undefined => false
  | .null => false
  | .bool b => b
  | .number n => n ≠ 0
  | .string s => s ≠ ""

/-- One maintenance event of a record (`log_entries[i]`); `part_number_replaced` is
`none` when the property is absent or null. -/
structure LogEntry where
  description_of_work_performed : JSValue
  reason_for_maintenance : JSValue
  part_number_replaced : Option (List JSValue)
  manual_reference : JSValue
  ad_compliance : JSValue
  next_due_compliance : JSValue
  service_bulletin_reference : JSValue
  performed_by : JSValue
  license_number : JSValue
  date : JSValue
  tach_time : JSValue
  hobbs_time : JSValue
  risk_level : JSValue
  urgency : JSValue
  is_airworthy : JSValue
  certification_statement : JSValue
  deriving DecidableEq, Repr

/-- The editable part of a record (`log.structured_data`); `log_entries` is `none`
when the property is absent or null. -/
structure StructuredData where
  aircraft_registration : JSValue
  aircraft_make_model : JSValue
  summary : JSValue
  log_entries : Option (List LogEntry)
  deriving DecidableEq, Repr

/-- One analyzed maintenance log as the backend returns it. -/
structure MaintenanceLogRecord where
  _id : String
  timestamp : String
  aircraft_registration : JSValue
  risk_level : JSValue
  description : JSValue
  image_filename : JSValue
  structured_data : StructuredData
  deriving DecidableEq, Repr

/-! ## State store (`MaintenanceLogContext.js`) -/

/-- The store state tree. -/
structure State where
  logs : List MaintenanceLogRecord
  currentLog : Option MaintenanceLogRecord
  loading : Bool
  error : Option String
  uploading : Bool
  analyzing : Bool
  deriving DecidableEq, Repr

/-- The `initialState` constant. -/
def initialState : State :=
  { logs := [], currentLog := none, loading := false, error := none,
    uploading := false, analyzing := false }

/-- The actions of `ACTIONS`, each with its payload; `UNKNOWN` stands for any action
whose type is none of the ten (the `default` branch of the reducer). -/
inductive Action where
  | SET_LOADING (payload : Bool)
  | SET_ERROR (payload : String)
  | SET_LOGS (payload : List MaintenanceLogRecord)
  | SET_CURRENT_LOG (payload : Option MaintenanceLogRecord)
  | ADD_LOG (payload : MaintenanceLogRecord)
  | UPDATE_LOG (payload : MaintenanceLogRecord)
  | DELETE_LOG (payload : String)
  | SET_UPLOADING (payload : Bool)
  | SET_ANALYZING (payload : Bool)
  | CLEAR_ERROR
  | UNKNOWN (type : String)
  deriving DecidableEq, Repr

/-- The function `maintenanceLogReducer(state, action)`. -/
def maintenanceLogReducer (state : State) (action : Action) : State :=
  match action with
  | .SET_LOADING payload => { state with loading := payload }
  | .SET_ERROR payload => { state with error := some payload, loading := false }
  | .SET_LOGS payload => { state with logs := payload, loading := false }
  | .SET_CURRENT_LOG payload => { state with currentLog := payload, loading := false }
  | .ADD_LOG payload =>
      { state with
        logs := payload :: state.logs
        currentLog := some payload
        uploading := false
        analyzing := false }
  | .UPDATE_LOG payload =>
      { state with
        logs := state.logs.map (fun log => if log._id = payload._id then payload else log)
        currentLog := some payload }
  | .DELETE_LOG payload =>
      { state with
        logs := state.logs.filter (fun log => log._id ≠ payload)
        currentLog :=
          if state.currentLog.map (fun log => log._id) = some payload then none
          else state.currentLog }
  | .SET_UPLOADING payload => { state with uploading := payload }
  | .SET_ANALYZING payload => { state with analyzing := payload }
  | .CLEAR_ERROR => { state with error := none }
  | .UNKNOWN _ => state

/-- The response of one network call: the data received, or the rejection. -/
abbrev Response (α : Type) := Except String α

/-- The body of the response to `POST /upload-log/`. -/
structure UploadResponse where
  success : Bool
  log_id : String
  message : Option String
  deriving DecidableEq, Repr

/-- The image file handed to `uploadLog`. -/
structure UploadFile where
  name : String
  mimeType : String
  deriving DecidableEq, Repr

/-- The backend as one operation sees it: the response of each endpoint. -/
structure Backend where
  getLogs : Response (List MaintenanceLogRecord)
  getLogById : String → Response MaintenanceLogRecord
  postUploadLog : UploadFile → Response UploadResponse
  putLog : String → StructuredData → Response MaintenanceLogRecord
  deleteLog : String → Response Unit
  searchLogs : String → Response (List MaintenanceLogRecord)
  postExport : String → String → Response String

/-- How the promise of an `async` operation settles. -/
inductive Settled where
  | fulfilled
  | rejected
  deriving DecidableEq, Repr

/-- A run of an operation that awaits one request: the store state its dispatches before
the `await` leave (the state while the request is in flight), the store state after its
last dispatch, and how its promise settled. -/
structure FetchRun where
  inFlight : State
  final : State
  settled : Settled
  deriving DecidableEq, Repr

/-- The body of `fetchLogs()`: the dispatch before `await axios.get`, then the dispatch of
the `try` block's end or of the `catch` block. -/
def fetchLogsRun (api : Backend) (state : State) : FetchRun :=
  let s1 := maintenanceLogReducer state (.SET_LOADING true)
  match api.getLogs with
  | .ok data =>
      { inFlight := s1
        final := maintenanceLogReducer s1 (.SET_LOGS data)
        settled := .fulfilled }
  | .error _ =>
      { inFlight := s1
        final := maintenanceLogReducer s1 (.SET_ERROR "Failed to fetch maintenance logs")
        settled := .fulfilled }

/-- The operation `fetchLogs()`: the state it ends in and how its promise settled. -/
def fetchLogs (api : Backend) (state : State) : State × Settled :=
  ((fetchLogsRun api state).final, (fetchLogsRun api state).settled)

/-- The operation `uploadLog(file)`. Every exit of the `try` block other than its normal
end (a rejected call, or the `throw` on an unsuccessful response) runs the `catch`
block. -/
def uploadLog (api : Backend) (state : State) (file : UploadFile) : State × Settled :=
  let s1 := maintenanceLogReducer state (.SET_UPLOADING true)
  let s2 := maintenanceLogReducer s1 (.SET_ANALYZING true)
  let onCatch (s : State) : State × Settled :=
    (maintenanceLogReducer s (.SET_ERROR "Failed to analyze maintenance log"), .fulfilled)
  match api.postUploadLog file with
  | .error _ => onCatch s2
  | .ok response =>
      if response.success then
        match api.getLogById response.log_id with
        | .error _ => onCatch s2
        | .ok logResponse =>
            let s3 := maintenanceLogReducer s2 (.ADD_LOG logResponse)
            match fetchLogs api s3 with
            | (s4, .fulfilled) => (s4, .fulfilled)
            | (s4, .rejected) => onCatch s4
      else onCatch s2

/-- The operation `updateLog(logId, logData)`. -/
def updateLog (api : Backend) (state : State) (logId : String) (logData : StructuredData) :
    State × Settled :=
  let onCatch (s : State) : State × Settled :=
    (maintenanceLogReducer s (.SET_ERROR "Failed to update maintenance log"), .fulfilled)
  match api.putLog logId logData with
  | .error _ => onCatch state
  | .ok response =>
      let s1 := maintenanceLogReducer state (.UPDATE_LOG response)
      match fetchLogs api s1 with
      | (s2, .fulfilled) => (s2, .fulfilled)
      | (s2, .rejected) => onCatch s2

/-- The operation `deleteLog(logId)`. -/
def deleteLog (api : Backend) (state : State) (logId : String) : State × Settled :=
  match api.deleteLog logId with
  | .ok _ => (maintenanceLogReducer state (.DELETE_LOG logId), .fulfilled)
  | .error _ =>
      (maintenanceLogReducer state (.SET_ERROR "Failed to delete maintenance log"), .fulfilled)

/-- The body of `fetchLogById(logId)`: the dispatch before `await axios.get`, then the
dispatch of the `try` block's end or of the `catch` block. -/
def fetchLogByIdRun (api : Backend) (state : State) (logId : String) : FetchRun :=
  let s1 := maintenanceLogReducer state (.SET_LOADING true)
  match api.getLogById logId with
  | .ok data =>
      { inFlight := s1
        final := maintenanceLogReducer s1 (.SET_CURRENT_LOG (some data))
        settled := .fulfilled }
  | .error _ =>
      { inFlight := s1
        final := maintenanceLogReducer s1 (.SET_ERROR "Failed to load maintenance log")
        settled := .fulfilled }

/-- The operation `fetchLogById(logId)`: the state it ends in and how its promise
settled. -/
def fetchLogById (api : Backend) (state : State) (logId : String) : State × Settled :=
  ((fetchLogByIdRun api state logId).final, (fetchLogByIdRun api state logId).settled)

/-- The body of `searchLogs(aircraftRegistration)`: the dispatch before `await axios.get`,
then the dispatch of the `try` block's end or of the `catch` block. -/
def searchLogsRun (api : Backend) (state : State) (aircraftRegistration : String) :
    FetchRun :=
  let s1 := maintenanceLogReducer state (.SET_LOADING true)
  match api.searchLogs aircraftRegistration with
  | .ok data =>
      { inFlight := s1
        final := maintenanceLogReducer s1 (.SET_LOGS data)
        settled := .fulfilled }
  | .error _ =>
      { inFlight := s1
        final := maintenanceLogReducer s1 (.SET_ERROR "Failed to search maintenance logs")
        settled := .fulfilled }

/-- The operation `searchLogs(aircraftRegistration)`: the state it ends in and how its
promise settled. -/
def searchLogs (api : Backend) (state : State) (aircraftRegistration : String) :
    State × Settled :=
  ((searchLogsRun api state aircraftRegistration).final,
    (searchLogsRun api state aircraftRegistration).settled)

/-- What `exportLog` leaves behind: the store state, how its promise settled, and the
`download` attribute of the link it clicked, if it got that far. -/
structure ExportResult where
  state : State
  settled : Settled
  download : Option String
  deriving DecidableEq, Repr

/-- The operation `exportLog(logId, format)`: it dispatches nothing; on success it clicks a
link whose `download` attribute is the generated file name, on failure it only logs and
shows a notification. -/
def exportLog (api : Backend) (state : State) (logId : String) (format : String) :
    ExportResult :=
  match api.postExport logId format with
  | .ok _ =>
      { state := state
        settled := .fulfilled
        download := some ("maintenance_log_" ++ logId ++ "." ++ format) }
  | .error _ => { state := state, settled := .fulfilled, download := none }

/-- The operation `clearCurrentLog()`. -/
def clearCurrentLog (state : State) : State :=
  maintenanceLogReducer state (.SET_CURRENT_LOG none)

/-! ## Detail view (`LogDisplay.js`) -/

/-- The two pieces of component state of `LogDisplay` that editing uses. -/
structure LogDisplayState where
  isEditing : Bool
  editedData : StructuredData
  deriving DecidableEq, Repr

/-- The component state `LogDisplay` mounts with: `useState(false)` and
`useState(log.structured_data)`. -/
def initialView (log : MaintenanceLogRecord) : LogDisplayState :=
  { isEditing := false, editedData := log.structured_data }

/-- The handler `handleSave()`: awaits `updateLog(log._id, editedData)` and then leaves
edit mode; a rejection of the awaited promise goes to the `catch` block, which only
logs. -/
def handleSave (api : Backend) (state : State) (log : MaintenanceLogRecord)
    (view : LogDisplayState) : State × LogDisplayState :=
  match updateLog api state log._id view.editedData with
  | (s1, .fulfilled) => (s1, { view with isEditing := false })
  | (s1, .rejected) => (s1, view)

/-- The handler `handleEdit()`. -/
def handleEdit (log : MaintenanceLogRecord) (view : LogDisplayState) : LogDisplayState :=
  { view with isEditing := true, editedData := log.structured_data }

/-- The handler `handleCancel()`. -/
def handleCancel (log : MaintenanceLogRecord) (view : LogDisplayState) : LogDisplayState :=
  { view with isEditing := false, editedData := log.structured_data }

/-- A JavaScript exception raised while evaluating an expression. -/
inductive JSError where
  | typeError
  deriving DecidableEq, Repr

/-- The names `renderField` and the summary box pass to `handleFieldChange`. -/
inductive TopField where
  | aircraft_registration
  | aircraft_make_model
  | summary
  deriving DecidableEq, Repr

/-- The names `renderEntryField` passes to `handleEntryFieldChange`. -/
inductive EntryField where
  | description_of_work_performed
  | reason_for_maintenance
  | manual_reference
  | ad_compliance
  | next_due_compliance
  | service_bulletin_reference
  | performed_by
  | license_number
  | date
  | tach_time
  | hobbs_time
  | risk_level
  | urgency
  | is_airworthy
  | certification_statement
  deriving DecidableEq, Repr

/-- The names `renderArrayField` passes to the list handlers. -/
inductive ArrayField where
  | part_number_replaced
  deriving DecidableEq, Repr

/-- The read `prev[field]` of a top-level field. -/
def StructuredData.getField (data : StructuredData) : TopField → JSValue
  | .aircraft_registration => data.aircraft_registration
  | .aircraft_make_model => data.aircraft_make_model
  | .summary => data.summary

/-- The copy `{ ...prev, [field]: value }` of a buffer. -/
def StructuredData.setField (data : StructuredData) (field : TopField) (value : JSValue) :
    StructuredData :=
  match field with
  | .aircraft_registration => { data with aircraft_registration := value }
  | .aircraft_make_model => { data with aircraft_make_model := value }
  | .summary => { data with summary := value }

/-- The read `entry[field]` of a scalar field. -/
def LogEntry.getField (entry : LogEntry) : EntryField → JSValue
  | .description_of_work_performed => entry.description_of_work_performed
  | .reason_for_maintenance => entry.reason_for_maintenance
  | .manual_reference => entry.manual_reference
  | .ad_compliance => entry.ad_compliance
  | .next_due_compliance => entry.next_due_compliance
  | .service_bulletin_reference => entry.service_bulletin_reference
  | .performed_by => entry.performed_by
  | .license_number => entry.license_number
  | .date => entry.date
  | .tach_time => entry.tach_time
  | .hobbs_time => entry.hobbs_time
  | .risk_level => entry.risk_level
  | .urgency => entry.urgency
  | .is_airworthy => entry.is_airworthy
  | .certification_statement => entry.certification_statement

/-- The copy `{ ...entry, [field]: value }` of an entry, for a scalar field. -/
def LogEntry.setField (entry : LogEntry) (field : EntryField) (value : JSValue) : LogEntry :=
  match field with
  | .description_of_work_performed => { entry with description_of_work_performed := value }
  | .reason_for_maintenance => { entry with reason_for_maintenance := value }
  | .manual_reference => { entry with manual_reference := value }
  | .ad_compliance => { entry with ad_compliance := value }
  | .next_due_compliance => { entry with next_due_compliance := value }
  | .service_bulletin_reference => { entry with service_bulletin_reference := value }
  | .performed_by => { entry with performed_by := value }
  | .license_number => { entry with license_number := value }
  | .date => { entry with date := value }
  | .tach_time => { entry with tach_time := value }
  | .hobbs_time => { entry with hobbs_time := value }
  | .risk_level => { entry with risk_level := value }
  | .urgency => { entry with urgency := value }
  | .is_airworthy => { entry with is_airworthy := value }
  | .certification_statement => { entry with certification_statement := value }

/-- The read `entry[field]` of a list field. -/
def LogEntry.getArray (entry : LogEntry) : ArrayField → Option (List JSValue)
  | .part_number_replaced => entry.part_number_replaced

/-- The copy `{ ...entry, [field]: items }` of an entry, for a list field. -/
def LogEntry.setArray (entry : LogEntry) (field : ArrayField) (items : List JSValue) :
    LogEntry :=
  match field with
  | .part_number_replaced => { entry with part_number_replaced := some items }

/-- The call `array.map((x, index) => ...)` with a callback that may throw, counting
indices from `index`: the first exception ends the call. -/
def arrayMapFrom {α β : Type} (callback : α → Nat → Except JSError β) :
    Nat → List α → Except JSError (List β)
  | _, [] => .ok []
  | index, x :: rest =>
      match callback x index with
      | .error e => .error e
      | .ok y =>
          match arrayMapFrom callback (index + 1) rest with
          | .error e => .error e
          | .ok ys => .ok (y :: ys)

/-- The call `array.map((x, index) => ...)` with a callback that may throw. -/
def arrayMap {α β : Type} (callback : α → Nat → Except JSError β) (xs : List α) :
    Except JSError (List β) :=
  arrayMapFrom callback 0 xs

/-- The call `array.filter((_, i) => keep i)`. -/
def filterByIndex {α : Type} (keep : Nat → Bool) (xs : List α) : List α :=
  (xs.enum.filter (fun p => keep p.1)).map (fun p => p.2)

/-- The updater of `handleFieldChange(field, value)`, applied to the buffer `prev`. -/
def handleFieldChange (prev : StructuredData) (field : TopField) (value : JSValue) :
    StructuredData :=
  prev.setField field value

/-- The updater of `handleEntryFieldChange(entryIndex, field, value)`, applied to the
buffer `prev`; calling `.map` on an absent `log_entries` throws. -/
def handleEntryFieldChange (prev : StructuredData) (entryIndex : Nat) (field : EntryField)
    (value : JSValue) : Except JSError StructuredData :=
  match prev.log_entries with
  | none => .error .typeError
  | some log_entries =>
      .ok { prev with
            log_entries := some (log_entries.mapIdx (fun index entry =>
              if index = entryIndex then entry.setField field value else entry)) }

/-- The updater of `handleArrayFieldChange(entryIndex, field, itemIndex, value)`, applied to
the buffer `prev`; calling `.map` on an absent list throws. -/
def handleArrayFieldChange (prev : StructuredData) (entryIndex : Nat) (field : ArrayField)
    (itemIndex : Nat) (value : JSValue) : Except JSError StructuredData :=
  match prev.log_entries with
  | none => .error .typeError
  | some log_entries =>
      match arrayMap (fun entry index =>
          if index = entryIndex then
            match entry.getArray field with
            | none => .error .typeError
            | some items =>
                .ok (entry.setArray field
                  (items.mapIdx (fun i item => if i = itemIndex then value else item)))
          else .ok entry) log_entries with
      | .error e => .error e
      | .ok entries => .ok { prev with log_entries := some entries }

/-- The updater of `addArrayItem(entryIndex, field)`, applied to the buffer `prev`;
spreading an absent list throws. -/
def addArrayItem (prev : StructuredData) (entryIndex : Nat) (field : ArrayField) :
    Except JSError StructuredData :=
  match prev.log_entries with
  | none => .error .typeError
  | some log_entries =>
      match arrayMap (fun entry index =>
          if index = entryIndex then
            match entry.getArray field with
            | none => .error .typeError
            | some items => .ok (entry.setArray field (items ++ [.string ""]))
          else .ok entry) log_entries with
      | .error e => .error e
      | .ok entries => .ok { prev with log_entries := some entries }

/-- The updater of `removeArrayItem(entryIndex, field, itemIndex)`, applied to the buffer
`prev`; calling `.filter` on an absent list throws. -/
def removeArrayItem (prev : StructuredData) (entryIndex : Nat) (field : ArrayField)
    (itemIndex : Nat) : Except JSError StructuredData :=
  match prev.log_entries with
  | none => .error .typeError
  | some log_entries =>
      match arrayMap (fun entry index =>
          if index = entryIndex then
            match entry.getArray field with
            | none => .error .typeError
            | some items =>
                .ok (entry.setArray field (filterByIndex (fun i => i ≠ itemIndex) items))
          else .ok entry) log_entries with
      | .error e => .error e
      | .ok entries => .ok { prev with log_entries := some entries }

/-- One call of an edit-buffer handler, as data. -/
inductive BufferEdit where
  | fieldChange (field : TopField) (value : JSValue)
  | entryFieldChange (entryIndex : Nat) (field : EntryField) (value : JSValue)
  | arrayFieldChange (entryIndex : Nat) (field : ArrayField) (itemIndex : Nat)
      (value : JSValue)
  | addItem (entryIndex : Nat) (field : ArrayField)
  | removeItem (entryIndex : Nat) (field : ArrayField) (itemIndex : Nat)
  deriving DecidableEq, Repr

/-- The view after `setEditedData(updater)` for one handler call; an exception thrown by
the updater ends the run. -/
def applyEdit (view : LogDisplayState) (edit : BufferEdit) : Except JSError LogDisplayState :=
  let commit (buffer : Except JSError StructuredData) : Except JSError LogDisplayState :=
    match buffer with
    | .error e => .error e
    | .ok editedData => .ok { view with editedData := editedData }
  match edit with
  | .fieldChange field value => commit (.ok (handleFieldChange view.editedData field value))
  | .entryFieldChange entryIndex field value =>
      commit (handleEntryFieldChange view.editedData entryIndex field value)
  | .arrayFieldChange entryIndex field itemIndex value =>
      commit (handleArrayFieldChange view.editedData entryIndex field itemIndex value)
  | .addItem entryIndex field => commit (addArrayItem view.editedData entryIndex field)
  | .removeItem entryIndex field itemIndex =>
      commit (removeArrayItem view.editedData entryIndex field itemIndex)

/-- The view after a finite sequence of handler calls, in order. -/
def applyEdits (view : LogDisplayState) : List BufferEdit → Except JSError LogDisplayState
  | [] => .ok view
  | edit :: rest =>
      match applyEdit view edit with
      | .error e => .error e
      | .ok next => applyEdits next rest

/-- One `Set.prototype.add`: the value is appended unless already present. -/
def setAdd (acc : List JSValue) (x : JSValue) : List JSValue :=
  if x ∈ acc then acc else acc ++ [x]

/-- The expression `[...new Set(values)]`: the distinct values in order of first
occurrence. -/
def uniqueValues (values : List JSValue) : List JSValue :=
  values.foldl setAdd []

/-- The helper `getHighestRiskLevel()` over the buffer `editedData`; calling `.map` on an
absent `log_entries` throws, and an array index out of range reads `undefined`. -/
def getHighestRiskLevel (editedData : StructuredData) : Except JSError JSValue :=
  match editedData.log_entries with
  | none => .error .typeError
  | some log_entries =>
      let riskLevels := log_entries.map (fun entry => entry.risk_level)
      if riskLevels.length = 0 then .ok (.string "Unknown")
      else
        let uniqueLevels := uniqueValues riskLevels
        if uniqueLevels.length = 1 then .ok (uniqueLevels[0]?.getD .undefined)
        else .ok (.string "Mixed")

/-- The helper `getHighestUrgency()` over the buffer `editedData`. -/
def getHighestUrgency (editedData : StructuredData) : Except JSError JSValue :=
  match editedData.log_entries with
  | none => .error .typeError
  | some log_entries =>
      let urgencies := log_entries.map (fun entry => entry.urgency)
      if urgencies.length = 0 then .ok (.string "Unknown")
      else
        let uniqueLevels := uniqueValues urgencies
        if uniqueLevels.length = 1 then .ok (uniqueLevels[0]?.getD .undefined)
        else .ok (.string "Mixed")

/-- The helper `getOverallAirworthiness()` over the buffer `editedData`: `every` tests the
truthiness of each entry's `is_airworthy`; on an absent `log_entries` it throws. -/
def getOverallAirworthiness (editedData : StructuredData) : Except JSError Bool :=
  match editedData.log_entries with
  | none => .error .typeError
  | some log_entries => .ok (log_entries.all (fun entry => entry.is_airworthy.truthy))

/-- The store's error field holds the non-empty message `msg`. -/
def holdsMessage (state : State) (msg : String) : Prop :=
  state.error = some msg ∧ msg ≠ ""

instance (state : State) (msg : String) : Decidable (holdsMessage state msg) := by
  unfold holdsMessage
  infer_instance

/-- The image viewer's pieces of the component state of `LogDisplay`. -/
structure ImageViewState where
  zoomLevel : ℚ
  panPosition : ℚ × ℚ
  deriving DecidableEq, Repr

/-- The image viewer state `LogDisplay` mounts with: `useState(1)` and
`useState({ x: 0, y: 0 })`. -/
def initialImageView : ImageViewState :=
  { zoomLevel := 1, panPosition := (0, 0) }

/-- The handler `handleZoomIn()`. -/
def handleZoomIn (view : ImageViewState) : ImageViewState :=
  { view with zoomLevel := min (view.zoomLevel + 0.25) 3 }

/-- The handler `handleZoomOut()`. -/
def handleZoomOut (view : ImageViewState) : ImageViewState :=
  { view with zoomLevel := max (view.zoomLevel - 0.25) 0.5 }

/-- The handler `handleResetZoom()`. -/
def handleResetZoom (view : ImageViewState) : ImageViewState :=
  { view with zoomLevel := 1, panPosition := (0, 0) }

/-- One click on a zoom control, as data. -/
inductive ZoomAction where
  | zoomIn
  | zoomOut
  | reset
  deriving DecidableEq, Repr

/-- The image viewer state after one click. -/
def applyZoom (view : ImageViewState) : ZoomAction → ImageViewState
  | .zoomIn => handleZoomIn view
  | .zoomOut => handleZoomOut view
  | .reset => handleResetZoom view

/-- The image viewer state after a finite sequence of clicks, in order. -/
def applyZooms (view : ImageViewState) (actions : List ZoomAction) : ImageViewState :=
  actions.foldl applyZoom view

/-- The `src` of the image of the detail view, for a record with an `image_filename`. -/
def imageSrc (encodeURIComponent : String → String) (image_filename : String) : String :=
  "http://localhost:8000/api/v1/images/" ++ encodeURIComponent image_filename

/-- The constant `API_BASE_URL`: the configured `REACT_APP_API_URL` when it is set and
not empty, the default otherwise. -/
def API_BASE_URL (REACT_APP_API_URL : Option String) : String :=
  match REACT_APP_API_URL with
  | some url => if url ≠ "" then url else "http://localhost:8000/api/v1"
  | none => "http://localhost:8000/api/v1"

/-! ## Sidebar (`Sidebar.js`) -/

/-- The helper `getRiskColor(riskLevel)` of the sidebar: `riskLevel?.toLowerCase()` is
`undefined` for an absent value and throws for a value that is no string. -/
def Sidebar.getRiskColor (toLowerCase : String → String) (riskLevel : JSValue) :
    Except JSError String :=
  match riskLevel with
  | .undefined => .ok "text-gray-400"
  | .null => .ok "text-gray-400"
  | .string s =>
      if toLowerCase s = "high" then .ok "text-red-600"
      else if toLowerCase s = "medium" then .ok "text-yellow-600"
      else if toLowerCase s = "low" then .ok "text-green-600"
      else .ok "text-gray-400"
  | .bool _ => .error .typeError
  | .number _ => .error .typeError

/-- What a submit of the search form leaves behind: the store state once the search, if
any, has settled, and the terms `searchLogs` was called with, in order. -/
structure SearchResult where
  store : State
  searches : List String
  deriving DecidableEq, Repr

/-- The handler `handleSearch(e)` of the sidebar, for the term typed into the form. -/
def Sidebar.handleSearch (trim : String → String) (api : Backend) (store : State)
    (searchTerm : String) : SearchResult :=
  if trim searchTerm ≠ "" then
    { store := (searchLogs api store (trim searchTerm)).1, searches := [trim searchTerm] }
  else { store := store, searches := [] }

/-! ## Upload surface (`UploadArea.js`) -/

/-- The component state of `UploadArea`. -/
structure UploadAreaState where
  uploadedFile : Option UploadFile
  error : Option String
  deriving DecidableEq, Repr

/-- A file the drop zone turned down, with its reasons. -/
structure FileRejection where
  file : UploadFile
  errors : List String
  deriving DecidableEq, Repr

/-- What a drop leaves behind: the store state, the component state, and the files
`uploadLog` was called with, in order. -/
structure DropResult where
  store : State
  view : UploadAreaState
  uploads : List UploadFile
  deriving DecidableEq, Repr

/-- The callback `onDrop(acceptedFiles, rejectedFiles)`; with `acceptedFiles.length > 0`
the file is `acceptedFiles[0]`. -/
def onDrop (api : Backend) (store : State) (view : UploadAreaState)
    (acceptedFiles : List UploadFile) (rejectedFiles : List FileRejection) : DropResult :=
  let v1 : UploadAreaState := { view with error := none }
  if rejectedFiles.length > 0 then
    { store := store
      view := { v1 with error := some "Please upload a valid image file (JPEG, PNG, WebP, TIFF)" }
      uploads := [] }
  else
    match acceptedFiles with
    | [] => { store := store, view := v1, uploads := [] }
    | file :: _ =>
        let v2 : UploadAreaState := { v1 with uploadedFile := some file }
        match uploadLog api store file with
        | (s1, .fulfilled) =>
            { store := s1, view := { v2 with uploadedFile := none }, uploads := [file] }
        | (s1, .rejected) =>
            { store := s1
              view := { v2 with
                error := some "Failed to upload and analyze the image. Please try again."
                uploadedFile := none }
              uploads := [file] }

/-! ## Concrete inputs used by the closed statements below -/

/-- A backend every call to which is rejected. -/
def rejectingBackend : Backend :=
  { getLogs := .error "Network Error"
    getLogById := fun _ => .error "Network Error"
    postUploadLog := fun _ => .error "Network Error"
    putLog := fun _ _ => .error "Network Error"
    deleteLog := fun _ => .error "Network Error"
    searchLogs := fun _ => .error "Network Error"
    postExport := fun _ _ => .error "Network Error" }

/-- A store state with a fetch in flight. -/
def loadingState : State := { initialState with loading := true }

/-- An entry with the given risk level, urgency and airworthiness, other fields absent. -/
def sampleEntry (risk urgency : String) (airworthy : Bool) : LogEntry :=
  { description_of_work_performed := .undefined
    reason_for_maintenance := .undefined
    part_number_replaced := some []
    manual_reference := .undefined
    ad_compliance := .undefined
    next_due_compliance := .undefined
    service_bulletin_reference := .undefined
    performed_by := .undefined
    license_number := .undefined
    date := .undefined
    tach_time := .undefined
    hobbs_time := .undefined
    risk_level := .string risk
    urgency := .string urgency
    is_airworthy := .bool airworthy
    certification_statement := .undefined }

/-- A buffer holding the given entries. -/
def sampleData (entries : List LogEntry) : StructuredData :=
  { aircraft_registration := .string "N123"
    aircraft_make_model := .undefined
    summary := .undefined
    log_entries := some entries }

/-- A record with the given identity and registration, and no entries. -/
def sampleRecord (id registration : String) : MaintenanceLogRecord :=
  { _id := id
    timestamp := "2024-01-01T00:00:00Z"
    aircraft_registration := .string registration
    risk_level := .undefined
    description := .undefined
    image_filename := .undefined
    structured_data := sampleData [] }

/-- A buffer without a `log_entries` property. -/
def sampleDataNoEntries : StructuredData :=
  { aircraft_registration := .string "N123"
    aircraft_make_model := .undefined
    summary := .undefined
    log_entries := none }

/-- An entry with two part numbers. -/
def sampleEntryWithParts : LogEntry :=
  { sampleEntry "Low" "Normal" true with
    part_number_replaced := some [.string "P-1", .string "P-2"] }

/-- A record with the given identity whose structured data holds the given entries. -/
def sampleRecordWith (id : String) (entries : List LogEntry) : MaintenanceLogRecord :=
  { sampleRecord id "N123" with structured_data := sampleData entries }

/-- A backend that answers every call: it holds the records "a" and "b". -/
def servingBackend : Backend :=
  { getLogs := .ok [sampleRecord "a" "N123", sampleRecord "b" "N456"]
    getLogById := fun logId => .ok (sampleRecord logId "N123")
    postUploadLog := fun _ => .ok { success := true, log_id := "c", message := none }
    putLog := fun logId data => .ok { sampleRecord logId "N123" with structured_data := data }
    deleteLog := fun _ => .ok ()
    searchLogs := fun registration => .ok [sampleRecord "a" registration]
    postExport := fun _ _ => .ok "%PDF" }

/-- A backend that answers every call and lists its records oldest first: after an
upload it holds "a" and the new record "c". -/
def oldestFirstBackend : Backend :=
  { servingBackend with
    getLogs := .ok [sampleRecord "a" "N123", sampleRecord "c" "N123"] }

/-- An image file. -/
def sampleFile : UploadFile := { name := "log.png", mimeType := "image/png" }

/-- A file the drop zone turned down for its type. -/
def sampleRejection : FileRejection :=
  { file := { name := "notes.txt", mimeType := "text/plain" }
    errors := ["file-invalid-type"] }

/-- Lower-casing of the letters A to Z, character by character. -/
def asciiLower (s : String) : String :=
  ⟨s.data.map Char.toLower⟩

/-- Removal of the blanks at both ends. -/
def trimBlanks (s : String) : String :=
  ⟨((s.data.dropWhile (fun c => c = ' ')).reverse.dropWhile (fun c => c = ' ')).reverse⟩

/-! ## Auxiliary facts about `uniqueValues` -/

theorem mem_foldl_setAdd (values acc : List JSValue) (x : JSValue) :
    x ∈ values.foldl setAdd acc ↔ x ∈ acc ∨ x ∈ values := by
  induction values generalizing acc with
  | nil => simp
  | cons v rest ih =>
      rw [List.foldl_cons, ih]
      unfold setAdd
      by_cases hv : v ∈ acc
      · simp only [hv, if_true, List.mem_cons]
        constructor
        · rintro (h | h)
          · exact Or.inl h
          · exact Or.inr (Or.inr h)
        · rintro (h | h | h)
          · exact Or.inl h
          · exact Or.inl (h ▸ hv)
          · exact Or.inr h
      · simp only [hv, if_false, List.mem_append, List.mem_singleton, List.mem_cons]
        tauto

theorem mem_uniqueValues (values : List JSValue) (x : JSValue) :
    x ∈ uniqueValues values ↔ x ∈ values := by
  unfold uniqueValues
  rw [mem_foldl_setAdd]
  simp

theorem uniqueValues_length_ne_one {values : List JSValue} {a b : JSValue}
    (ha : a ∈ values) (hb : b ∈ values) (hab : a ≠ b) :
    (uniqueValues values).length ≠ 1 := by
  intro hlen
  obtain ⟨u, hu⟩ := List.length_eq_one.mp hlen
  have h1 : a ∈ uniqueValues values := (mem_uniqueValues values a).mpr ha
  have h2 : b ∈ uniqueValues values := (mem_uniqueValues values b).mpr hb
  rw [hu, List.mem_singleton] at h1 h2
  exact hab (h1.trans h2.symm)

theorem foldl_setAdd_const (values : List JSValue) (v : JSValue)
    (hall : ∀ x ∈ values, x = v) : values.foldl setAdd [v] = [v] := by
  induction values with
  | nil => rfl
  | cons x rest ih =>
      have hx : x = v := hall x (List.mem_cons_self x rest)
      have hstep : setAdd [v] x = [v] := by
        unfold setAdd
        simp [hx]
      rw [List.foldl_cons, hstep]
      exact ih (fun y hy => hall y (List.mem_cons_of_mem x hy))

theorem uniqueValues_const {values : List JSValue} {v : JSValue}
    (hne : values ≠ []) (hall : ∀ x ∈ values, x = v) : uniqueValues values = [v] := by
  cases values with
  | nil => exact absurd rfl hne
  | cons x rest =>
      have hx : x = v := hall x (List.mem_cons_self x rest)
      have hstep : setAdd [] x = [v] := by
        unfold setAdd
        simp [hx]
      unfold uniqueValues
      rw [List.foldl_cons, hstep]
      exact foldl_setAdd_const rest v (fun y hy => hall y (List.mem_cons_of_mem x hy))

/-! ## The reducer's transitions -/

/-- C1: the DELETE_LOG transition empties "current" when the current record's `_id` is
the deleted id, and leaves "current" as it was when the current record has another
`_id` or there is no current record. -/
theorem delete_log_current (state : State) (id : String) :
    (∀ log, state.currentLog = some log → log._id = id →
        (maintenanceLogReducer state (.DELETE_LOG id)).currentLog = none) ∧
    (∀ log, state.currentLog = some log → log._id ≠ id →
        (maintenanceLogReducer state (.DELETE_LOG id)).currentLog = state.currentLog) ∧
    (state.currentLog = none →
        (maintenanceLogReducer state (.DELETE_LOG id)).currentLog = state.currentLog) := by
  refine ⟨?_, ?_, ?_⟩
  · intro log hcur hid
    simp [maintenanceLogReducer, hcur, hid]
  · intro log hcur hid
    simp [maintenanceLogReducer, hcur, hid]
  · intro hcur
    simp [maintenanceLogReducer, hcur]

/-- C2: after the DELETE_LOG transition no record of the list has the deleted id, the
list is a sublist of the prior list (relative order kept), and every record with
another `_id` occurs exactly as many times as before. -/
theorem delete_log_logs (state : State) (id : String) :
    (∀ log ∈ (maintenanceLogReducer state (.DELETE_LOG id)).logs, log._id ≠ id) ∧
    ((maintenanceLogReducer state (.DELETE_LOG id)).logs).Sublist state.logs ∧
    (∀ log : MaintenanceLogRecord, log._id ≠ id →
        ((maintenanceLogReducer state (.DELETE_LOG id)).logs).count log =
          state.logs.count log) := by
  refine ⟨?_, ?_, ?_⟩
  · intro log hmem
    simp only [maintenanceLogReducer, List.mem_filter, decide_eq_true_eq] at hmem
    exact hmem.2
  · simp only [maintenanceLogReducer]
    exact List.filter_sublist state.logs
  · intro log hid
    simp only [maintenanceLogReducer]
    rw [List.count_filter]
    simpa using hid

/-- C4: the ADD_LOG transition yields the new record followed by the whole prior list
(one element longer), makes the new record "current", and clears uploading and
analyzing. -/
theorem add_log_transition (state : State) (r : MaintenanceLogRecord) :
    (maintenanceLogReducer state (.ADD_LOG r)).logs = r :: state.logs ∧
    (maintenanceLogReducer state (.ADD_LOG r)).logs.length = state.logs.length + 1 ∧
    (maintenanceLogReducer state (.ADD_LOG r)).currentLog = some r ∧
    (maintenanceLogReducer state (.ADD_LOG r)).uploading = false ∧
    (maintenanceLogReducer state (.ADD_LOG r)).analyzing = false := by
  simp [maintenanceLogReducer]

/-- C5: the UPDATE_LOG transition keeps the length of the list, puts the response record
at every position whose record has the response's `_id`, keeps the record of every
other position, and makes the response record "current". -/
theorem update_log_transition (state : State) (r : MaintenanceLogRecord) :
    (maintenanceLogReducer state (.UPDATE_LOG r)).logs.length = state.logs.length ∧
    (∀ (i : Nat) (log : MaintenanceLogRecord), state.logs[i]? = some log →
        (log._id = r._id →
          (maintenanceLogReducer state (.UPDATE_LOG r)).logs[i]? = some r) ∧
        (log._id ≠ r._id →
          (maintenanceLogReducer state (.UPDATE_LOG r)).logs[i]? = some log)) ∧
    (maintenanceLogReducer state (.UPDATE_LOG r)).currentLog = some r := by
  refine ⟨?_, ?_, ?_⟩
  · simp [maintenanceLogReducer]
  · intro i log hget
    constructor
    · intro hid
      simp [maintenanceLogReducer, hget, hid]
    · intro hid
      simp [maintenanceLogReducer, hget, hid]
  · simp [maintenanceLogReducer]

/-! ## Store operations on their failure paths -/

/-- The promise of `updateLog` is fulfilled whatever the backend answers: its whole body
sits in a `try` whose `catch` block does not throw. -/
theorem updateLog_fulfilled (api : Backend) (state : State) (logId : String)
    (logData : StructuredData) : (updateLog api state logId logData).2 = .fulfilled := by
  unfold updateLog fetchLogs fetchLogsRun
  cases api.putLog logId logData <;> cases api.getLogs <;> rfl

/-- The state `uploadLog` ends in when the upload request is rejected: the two flags set,
then the SET_ERROR transition. -/
theorem uploadLog_rejected_state (api : Backend) (state : State) (file : UploadFile)
    (msg : String) (hpost : api.postUploadLog file = .error msg) :
    (uploadLog api state file).1 =
      { state with
        uploading := true
        analyzing := true
        error := some "Failed to analyze maintenance log"
        loading := false } := by
  simp [uploadLog, hpost, maintenanceLogReducer]

/-- C3: on the failure path of `uploadLog` (the upload request is rejected) the store
ends with uploading and analyzing both still true, from every starting state: the
SET_ERROR transition dispatched by the `catch` block does not touch them. -/
theorem uploadLog_failure_keeps_flags (state : State) (file : UploadFile) :
    (uploadLog rejectingBackend state file).1.uploading = true ∧
    (uploadLog rejectingBackend state file).1.analyzing = true := by
  simp [uploadLog, rejectingBackend, maintenanceLogReducer]

/-- C6, as stated, fails: started in a state whose loading flag is true, a failed
`updateLog` ends in a state that differs from the starting state in more than the error
field (loading has become false). -/
theorem updateLog_failure_not_only_error :
    ¬ ((updateLog rejectingBackend loadingState "a" (sampleData [])).1 =
        { loadingState with
          error := (updateLog rejectingBackend loadingState "a" (sampleData [])).1.error }) := by
  decide

/-- C6, amended: when the update request is rejected, `updateLog` leaves the list,
"current", uploading and analyzing as they were, sets the error field to its message
and sets loading to false. -/
theorem updateLog_failure_state (api : Backend) (state : State) (logId : String)
    (logData : StructuredData) (msg : String)
    (hput : api.putLog logId logData = .error msg) :
    (updateLog api state logId logData).1.logs = state.logs ∧
    (updateLog api state logId logData).1.currentLog = state.currentLog ∧
    (updateLog api state logId logData).1.uploading = state.uploading ∧
    (updateLog api state logId logData).1.analyzing = state.analyzing ∧
    (updateLog api state logId logData).1.error = some "Failed to update maintenance log" ∧
    (updateLog api state logId logData).1.loading = false := by
  simp [updateLog, hput, maintenanceLogReducer]

/-- The amended statement at a state with a fetch in flight and a rejecting backend. -/
theorem updateLog_failure_state_witness :
    (updateLog rejectingBackend loadingState "a" (sampleData [])).1.logs = loadingState.logs ∧
    (updateLog rejectingBackend loadingState "a" (sampleData [])).1.currentLog =
      loadingState.currentLog ∧
    (updateLog rejectingBackend loadingState "a" (sampleData [])).1.uploading =
      loadingState.uploading ∧
    (updateLog rejectingBackend loadingState "a" (sampleData [])).1.analyzing =
      loadingState.analyzing ∧
    (updateLog rejectingBackend loadingState "a" (sampleData [])).1.error =
      some "Failed to update maintenance log" ∧
    (updateLog rejectingBackend loadingState "a" (sampleData [])).1.loading = false :=
  updateLog_failure_state rejectingBackend loadingState "a" (sampleData []) "Network Error" rfl

/-! ## The detail view -/

/-- C7: when the update request is rejected, `handleSave` still ends with the view out of
edit mode (the buffer is unchanged): the awaited `updateLog` has caught the failure
itself, so the `catch` block of `handleSave` is never reached. -/
theorem handleSave_failure_leaves_edit_mode (state : State) (log : MaintenanceLogRecord)
    (view : LogDisplayState) :
    (handleSave rejectingBackend state log view).2.isEditing = false ∧
    (handleSave rejectingBackend state log view).2.editedData = view.editedData := by
  simp [handleSave, updateLog, rejectingBackend]

/-- C8: a buffer whose entries include two with different `risk_level` values has derived
risk level "Mixed", and one whose entries include two with different `urgency` values
has derived urgency "Mixed". -/
theorem mixed_when_values_differ (editedData : StructuredData) (entries : List LogEntry)
    (hentries : editedData.log_entries = some entries) :
    (∀ a ∈ entries, ∀ b ∈ entries, a.risk_level ≠ b.risk_level →
        getHighestRiskLevel editedData = .ok (.string "Mixed")) ∧
    (∀ a ∈ entries, ∀ b ∈ entries, a.urgency ≠ b.urgency →
        getHighestUrgency editedData = .ok (.string "Mixed")) := by
  constructor
  · intro a ha b hb hab
    have hlen : (entries.map (fun entry => entry.risk_level)).length ≠ 0 := by
      rw [List.length_map]
      exact List.length_pos.mpr (List.ne_nil_of_mem ha) |>.ne.symm
    have huniq := uniqueValues_length_ne_one
      (List.mem_map_of_mem (fun entry => entry.risk_level) ha)
      (List.mem_map_of_mem (fun entry => entry.risk_level) hb) hab
    simp only [getHighestRiskLevel, hentries, hlen, huniq, if_false]
  · intro a ha b hb hab
    have hlen : (entries.map (fun entry => entry.urgency)).length ≠ 0 := by
      rw [List.length_map]
      exact List.length_pos.mpr (List.ne_nil_of_mem ha) |>.ne.symm
    have huniq := uniqueValues_length_ne_one
      (List.mem_map_of_mem (fun entry => entry.urgency) ha)
      (List.mem_map_of_mem (fun entry => entry.urgency) hb) hab
    simp only [getHighestUrgency, hentries, hlen, huniq, if_false]

/-- Two entries, Low/Normal and High/High: both derived values are "Mixed". -/
theorem mixed_when_values_differ_witness :
    getHighestRiskLevel
        (sampleData [sampleEntry "Low" "Normal" true, sampleEntry "High" "High" false]) =
      .ok (.string "Mixed") ∧
    getHighestUrgency
        (sampleData [sampleEntry "Low" "Normal" true, sampleEntry "High" "High" false]) =
      .ok (.string "Mixed") :=
  ⟨(mixed_when_values_differ _ _ rfl).1
      (sampleEntry "Low" "Normal" true) (by decide)
      (sampleEntry "High" "High" false) (by decide) (by decide),
   (mixed_when_values_differ _ _ rfl).2
      (sampleEntry "Low" "Normal" true) (by decide)
      (sampleEntry "High" "High" false) (by decide) (by decide)⟩

/-- C9: a buffer with at least one entry, all of whose entries carry the same
`risk_level` value, has that value as derived risk level; the same with `urgency` and
the derived urgency. -/
theorem unique_value_when_all_equal (editedData : StructuredData) (entries : List LogEntry)
    (v : JSValue) (hentries : editedData.log_entries = some entries) (hne : entries ≠ []) :
    ((∀ entry ∈ entries, entry.risk_level = v) → getHighestRiskLevel editedData = .ok v) ∧
    ((∀ entry ∈ entries, entry.urgency = v) → getHighestUrgency editedData = .ok v) := by
  constructor
  · intro hall
    have hmap : entries.map (fun entry => entry.risk_level) ≠ [] := by
      simpa using hne
    have huniq : uniqueValues (entries.map (fun entry => entry.risk_level)) = [v] := by
      apply uniqueValues_const hmap
      intro x hx
      obtain ⟨entry, hmem, rfl⟩ := List.mem_map.mp hx
      exact hall entry hmem
    simp [getHighestRiskLevel, hentries, hne, huniq]
  · intro hall
    have hmap : entries.map (fun entry => entry.urgency) ≠ [] := by
      simpa using hne
    have huniq : uniqueValues (entries.map (fun entry => entry.urgency)) = [v] := by
      apply uniqueValues_const hmap
      intro x hx
      obtain ⟨entry, hmem, rfl⟩ := List.mem_map.mp hx
      exact hall entry hmem
    simp [getHighestUrgency, hentries, hne, huniq]

/-- Two entries of risk level High, and a single entry of urgency Normal. -/
theorem unique_value_when_all_equal_witness :
    getHighestRiskLevel
        (sampleData [sampleEntry "High" "Normal" true, sampleEntry "High" "Medium" false]) =
      .ok (.string "High") ∧
    getHighestUrgency (sampleData [sampleEntry "Low" "Normal" true]) =
      .ok (.string "Normal") :=
  ⟨(unique_value_when_all_equal _ _ (.string "High") rfl (by decide)).1 (by decide),
   (unique_value_when_all_equal _ _ (.string "Normal") rfl (by decide)).2 (by decide)⟩

/-- C10: a buffer whose entry list is empty has derived risk level "Unknown" and derived
urgency "Unknown". -/
theorem unknown_when_no_entries (editedData : StructuredData)
    (hentries : editedData.log_entries = some []) :
    getHighestRiskLevel editedData = .ok (.string "Unknown") ∧
    getHighestUrgency editedData = .ok (.string "Unknown") := by
  simp [getHighestRiskLevel, getHighestUrgency, hentries]

/-- A record without entries: both derived values are "Unknown". -/
theorem unknown_when_no_entries_witness :
    getHighestRiskLevel (sampleRecord "a" "N123").structured_data = .ok (.string "Unknown") ∧
    getHighestUrgency (sampleRecord "a" "N123").structured_data = .ok (.string "Unknown") :=
  unknown_when_no_entries (sampleRecord "a" "N123").structured_data rfl

/-! ## Auxiliary facts about `arrayMap` and the edit handlers -/

/-- What `arrayMapFrom` gives for a callback that rewrites the element at index `e` only. -/
theorem arrayMapFrom_at {α : Type} (f : α → Except JSError α) (e : Nat) (xs : List α)
    (start : Nat) :
    arrayMapFrom (fun x index => if index = e then f x else .ok x) start xs =
      if e < start then .ok xs
      else
        match xs[e - start]? with
        | none => .ok xs
        | some x =>
            match f x with
            | .error err => .error err
            | .ok y => .ok (xs.set (e - start) y) := by
  induction xs generalizing start with
  | nil => simp [arrayMapFrom]
  | cons x rest ih =>
      unfold arrayMapFrom
      by_cases hidx : start = e
      · subst hidx
        have hrest := ih (start + 1)
        simp only [Nat.lt_succ_self, if_true] at hrest
        simp only [if_true, Nat.lt_irrefl, if_false, Nat.sub_self, List.getElem?_cons_zero,
          hrest, List.set_cons_zero]
      · have hrest := ih (start + 1)
        simp only [hidx, if_false, hrest]
        by_cases hlt : e < start
        · have hlt' : e < start + 1 := Nat.lt_succ_of_lt hlt
          simp [hlt, hlt']
        · have hgt : start < e := by omega
          have hnlt : ¬ e < start + 1 := by omega
          have hsub : e - start = (e - (start + 1)) + 1 := by omega
          simp only [hlt, hnlt, if_false, hsub, List.getElem?_cons_succ, List.set_cons_succ]
          cases hget : rest[e - (start + 1)]? with
          | none => rfl
          | some y =>
              simp only
              cases f y <;> rfl

/-- What `arrayMap` gives for a callback that rewrites the element at index `e` only. -/
theorem arrayMap_at {α : Type} (f : α → Except JSError α) (e : Nat) (xs : List α) :
    arrayMap (fun x index => if index = e then f x else .ok x) xs =
      match xs[e]? with
      | none => .ok xs
      | some x =>
          match f x with
          | .error err => .error err
          | .ok y => .ok (xs.set e y) := by
  unfold arrayMap
  rw [arrayMapFrom_at]
  simp

theorem getField_setField_same (entry : LogEntry) (field : EntryField) (value : JSValue) :
    (entry.setField field value).getField field = value := by
  cases field <;> rfl

theorem getField_setField_other (entry : LogEntry) (field other : EntryField)
    (value : JSValue) (hne : other ≠ field) :
    (entry.setField field value).getField other = entry.getField other := by
  cases field <;> cases other <;> first | rfl | exact absurd rfl hne

theorem part_numbers_setField (entry : LogEntry) (field : EntryField) (value : JSValue) :
    (entry.setField field value).part_number_replaced = entry.part_number_replaced := by
  cases field <;> rfl

theorem getField_setArray (entry : LogEntry) (field : ArrayField) (items : List JSValue)
    (other : EntryField) : (entry.setArray field items).getField other = entry.getField other := by
  cases field
  cases other <;> rfl

theorem getArray_setArray (entry : LogEntry) (field : ArrayField) (items : List JSValue) :
    (entry.setArray field items).getArray field = some items := by
  cases field
  rfl

/-- A handler call that succeeds leaves the edit-mode flag of the view alone. -/
theorem applyEdit_isEditing (view next : LogDisplayState) (edit : BufferEdit)
    (hstep : applyEdit view edit = .ok next) : next.isEditing = view.isEditing := by
  unfold applyEdit at hstep
  cases edit with
  | fieldChange field value =>
      simp only [Except.ok.injEq] at hstep
      rw [← hstep]
  | entryFieldChange entryIndex field value =>
      simp only at hstep
      cases hbuf : handleEntryFieldChange view.editedData entryIndex field value with
      | error e => rw [hbuf] at hstep; cases hstep
      | ok data =>
          rw [hbuf] at hstep
          simp only [Except.ok.injEq] at hstep
          rw [← hstep]
  | arrayFieldChange entryIndex field itemIndex value =>
      simp only at hstep
      cases hbuf : handleArrayFieldChange view.editedData entryIndex field itemIndex value with
      | error e => rw [hbuf] at hstep; cases hstep
      | ok data =>
          rw [hbuf] at hstep
          simp only [Except.ok.injEq] at hstep
          rw [← hstep]
  | addItem entryIndex field =>
      simp only at hstep
      cases hbuf : addArrayItem view.editedData entryIndex field with
      | error e => rw [hbuf] at hstep; cases hstep
      | ok data =>
          rw [hbuf] at hstep
          simp only [Except.ok.injEq] at hstep
          rw [← hstep]
  | removeItem entryIndex field itemIndex =>
      simp only at hstep
      cases hbuf : removeArrayItem view.editedData entryIndex field itemIndex with
      | error e => rw [hbuf] at hstep; cases hstep
      | ok data =>
          rw [hbuf] at hstep
          simp only [Except.ok.injEq] at hstep
          rw [← hstep]

/-- A run of handler calls that succeeds leaves the edit-mode flag of the view alone. -/
theorem applyEdits_isEditing (edits : List BufferEdit) (view last : LogDisplayState)
    (hrun : applyEdits view edits = .ok last) : last.isEditing = view.isEditing := by
  induction edits generalizing view with
  | nil =>
      simp only [applyEdits, Except.ok.injEq] at hrun
      rw [← hrun]
  | cons edit rest ih =>
      unfold applyEdits at hrun
      cases hstep : applyEdit view edit with
      | error e => rw [hstep] at hrun; cases hrun
      | ok next =>
          rw [hstep] at hrun
          rw [ih next hrun]
          exact applyEdit_isEditing view next edit hstep

/-! ## Derived values and the edit buffer -/

/-- C11: over a buffer that has an entry list, `getOverallAirworthiness` returns a boolean;
it is true exactly when every entry's `is_airworthy` is truthy, which for entries whose
`is_airworthy` is a boolean (or absent) is exactly when every entry's `is_airworthy` is
`true`; for the empty entry list it is true. -/
theorem overall_airworthiness_iff (editedData : StructuredData) (entries : List LogEntry)
    (hentries : editedData.log_entries = some entries) :
    (∃ b, getOverallAirworthiness editedData = .ok b) ∧
    (getOverallAirworthiness editedData = .ok true ↔
      ∀ entry ∈ entries, entry.is_airworthy.truthy = true) ∧
    ((∀ entry ∈ entries, entry.is_airworthy = .undefined ∨ entry.is_airworthy = .null ∨
          ∃ b, entry.is_airworthy = .bool b) →
      (getOverallAirworthiness editedData = .ok true ↔
        ∀ entry ∈ entries, entry.is_airworthy = .bool true)) ∧
    (entries = [] → getOverallAirworthiness editedData = .ok true) := by
  have hiff : getOverallAirworthiness editedData = .ok true ↔
      ∀ entry ∈ entries, entry.is_airworthy.truthy = true := by
    simp [getOverallAirworthiness, hentries, List.all_eq_true]
  refine ⟨?_, hiff, ?_, ?_⟩
  · refine ⟨entries.all (fun entry => entry.is_airworthy.truthy), ?_⟩
    simp only [getOverallAirworthiness, hentries]
  · intro hbool
    rw [hiff]
    constructor
    · intro hall entry hmem
      have htruthy := hall entry hmem
      rcases hbool entry hmem with h | h | ⟨b, h⟩
      · rw [h] at htruthy; cases htruthy
      · rw [h] at htruthy; cases htruthy
      · rw [h] at htruthy ⊢
        simp only [JSValue.truthy] at htruthy
        rw [htruthy]
    · intro hall entry hmem
      rw [hall entry hmem]
      rfl
  · intro hnil
    subst hnil
    simp [getOverallAirworthiness, hentries]

/-- Two airworthy entries give true, an entry that is not airworthy gives false, and no
entries give true. -/
theorem overall_airworthiness_iff_witness :
    getOverallAirworthiness
        (sampleData [sampleEntry "Low" "Normal" true, sampleEntry "High" "High" true]) =
      .ok true ∧
    ¬ getOverallAirworthiness
        (sampleData [sampleEntry "Low" "Normal" true, sampleEntry "High" "High" false]) =
      .ok true ∧
    getOverallAirworthiness (sampleData []) = .ok true :=
  ⟨(overall_airworthiness_iff _ _ rfl).2.1.mpr (by decide),
   fun h => absurd ((overall_airworthiness_iff _ _ rfl).2.1.mp h) (by decide),
   (overall_airworthiness_iff (sampleData []) [] rfl).2.2.2 rfl⟩

/-- C12: for a record whose structured data has no `log_entries`, the detail view mounts
with a buffer on which the three derived-value helpers throw a `TypeError` instead of
giving "Unknown", "Unknown" and true. -/
theorem derived_values_throw_without_entries (log : MaintenanceLogRecord) :
    getHighestRiskLevel
        (initialView { log with
          structured_data := { log.structured_data with log_entries := none } }).editedData =
      .error .typeError ∧
    getHighestUrgency
        (initialView { log with
          structured_data := { log.structured_data with log_entries := none } }).editedData =
      .error .typeError ∧
    getOverallAirworthiness
        (initialView { log with
          structured_data := { log.structured_data with log_entries := none } }).editedData =
      .error .typeError :=
  ⟨rfl, rfl, rfl⟩

/-- C13: after Edit and any run of edit-buffer handler calls that goes through, the view is
still in edit mode, and Cancel puts the buffer back to the committed record's structured
data (the buffer Edit started from) and leaves edit mode, so the derived risk level,
urgency and airworthiness and every top-level field are those of the committed record. -/
theorem cancel_restores_committed (log : MaintenanceLogRecord) (view edited : LogDisplayState)
    (edits : List BufferEdit) (hrun : applyEdits (handleEdit log view) edits = .ok edited) :
    edited.isEditing = true ∧
    (handleCancel log edited).isEditing = false ∧
    (handleCancel log edited).editedData = log.structured_data ∧
    (handleCancel log edited).editedData = (handleEdit log view).editedData ∧
    getHighestRiskLevel (handleCancel log edited).editedData =
      getHighestRiskLevel log.structured_data ∧
    getHighestUrgency (handleCancel log edited).editedData =
      getHighestUrgency log.structured_data ∧
    getOverallAirworthiness (handleCancel log edited).editedData =
      getOverallAirworthiness log.structured_data ∧
    (∀ field : TopField, (handleCancel log edited).editedData.getField field =
      log.structured_data.getField field) := by
  refine ⟨?_, rfl, rfl, rfl, rfl, rfl, rfl, fun _ => rfl⟩
  rw [applyEdits_isEditing edits (handleEdit log view) edited hrun]
  rfl

/-- The edits of the round trip below: a summary, an airworthiness flag, an added and a
removed part number. -/
theorem cancel_restores_committed_witness :
    (handleCancel (sampleRecordWith "a" [sampleEntryWithParts])
        { isEditing := true
          editedData :=
            { sampleData [{ sampleEntry "Low" "Normal" false with
                part_number_replaced := some [.string "P-2", .string ""] }] with
              summary := .string "s" } }).editedData =
      (sampleRecordWith "a" [sampleEntryWithParts]).structured_data ∧
    (handleCancel (sampleRecordWith "a" [sampleEntryWithParts])
        { isEditing := true
          editedData :=
            { sampleData [{ sampleEntry "Low" "Normal" false with
                part_number_replaced := some [.string "P-2", .string ""] }] with
              summary := .string "s" } }).isEditing = false :=
  have h := cancel_restores_committed (sampleRecordWith "a" [sampleEntryWithParts])
    (initialView (sampleRecordWith "a" [sampleEntryWithParts]))
    { isEditing := true
      editedData :=
        { sampleData [{ sampleEntry "Low" "Normal" false with
            part_number_replaced := some [.string "P-2", .string ""] }] with
          summary := .string "s" } }
    [.fieldChange .summary (.string "s"), .entryFieldChange 0 .is_airworthy (.bool false),
      .addItem 0 .part_number_replaced, .removeItem 0 .part_number_replaced 0]
    rfl
  ⟨h.2.2.1, h.2.1⟩

theorem lt_length_of_getElem? {α : Type} {xs : List α} {i : Nat} {x : α}
    (h : xs[i]? = some x) : i < xs.length := by
  by_contra hge
  rw [List.getElem?_eq_none (Nat.le_of_not_lt hge)] at h
  cases h

/-- The buffer `handleArrayFieldChange` gives when entry `e` exists and has the list. -/
theorem handleArrayFieldChange_eq (prev : StructuredData) (entries : List LogEntry)
    (e : Nat) (entry : LogEntry) (field : ArrayField) (items : List JSValue) (i : Nat)
    (v : JSValue) (hentries : prev.log_entries = some entries)
    (hentry : entries[e]? = some entry) (hitems : entry.getArray field = some items) :
    handleArrayFieldChange prev e field i v =
      .ok { prev with
            log_entries := some (entries.set e (entry.setArray field
              (items.mapIdx (fun j item => if j = i then v else item)))) } := by
  unfold handleArrayFieldChange
  rw [hentries]
  simp only
  rw [arrayMap_at]
  simp only [hentry, hitems]

/-- C14: for a buffer with entries, an entry index `e` in range, a list field present on
that entry and an item index `i` in range, `handleArrayFieldChange(e, f, i, v)` returns a
buffer with the same top-level fields and as many entries, in which entry `e` has a list
`f` of the same length with `v` at position `i` and every other position as before, has
every scalar field as before, and every other entry is as before. -/
theorem handleArrayFieldChange_spec (prev : StructuredData) (entries : List LogEntry)
    (e : Nat) (entry : LogEntry) (field : ArrayField) (items : List JSValue) (i : Nat)
    (v : JSValue) (hentries : prev.log_entries = some entries)
    (hentry : entries[e]? = some entry) (hitems : entry.getArray field = some items)
    (hi : i < items.length) :
    ∃ entries' entry' items',
      handleArrayFieldChange prev e field i v =
        .ok { prev with log_entries := some entries' } ∧
      entries'.length = entries.length ∧
      entries'[e]? = some entry' ∧
      entry'.getArray field = some items' ∧
      items'.length = items.length ∧
      items'[i]? = some v ∧
      (∀ j, j ≠ i → items'[j]? = items[j]?) ∧
      (∀ other : EntryField, entry'.getField other = entry.getField other) ∧
      (∀ k, k ≠ e → entries'[k]? = entries[k]?) := by
  refine ⟨entries.set e (entry.setArray field
      (items.mapIdx (fun j item => if j = i then v else item))),
    entry.setArray field (items.mapIdx (fun j item => if j = i then v else item)),
    items.mapIdx (fun j item => if j = i then v else item),
    handleArrayFieldChange_eq prev entries e entry field items i v hentries hentry hitems,
    ?_, ?_, getArray_setArray _ _ _, ?_, ?_, ?_, getField_setArray _ _ _, ?_⟩
  · exact List.length_set _ _ _
  · exact List.getElem?_set_self (lt_length_of_getElem? hentry)
  · exact List.length_mapIdx
  · rw [List.getElem?_mapIdx, List.getElem?_eq_getElem hi]
    simp
  · intro j hj
    rw [List.getElem?_mapIdx]
    cases items[j]? with
    | none => rfl
    | some item => simp [hj]
  · intro k hk
    exact List.getElem?_set_ne (Ne.symm hk)

/-- The second part number of the first of two entries is replaced. -/
theorem handleArrayFieldChange_spec_witness :
    ∃ entries' entry' items',
      handleArrayFieldChange
          (sampleData [sampleEntryWithParts, sampleEntry "High" "High" false]) 0
          .part_number_replaced 1 (.string "P-9") =
        .ok { sampleData [sampleEntryWithParts, sampleEntry "High" "High" false] with
              log_entries := some entries' } ∧
      entries'.length = [sampleEntryWithParts, sampleEntry "High" "High" false].length ∧
      entries'[0]? = some entry' ∧
      entry'.getArray .part_number_replaced = some items' ∧
      items'.length = [JSValue.string "P-1", JSValue.string "P-2"].length ∧
      items'[1]? = some (.string "P-9") ∧
      (∀ j, j ≠ 1 → items'[j]? = [JSValue.string "P-1", JSValue.string "P-2"][j]?) ∧
      (∀ other : EntryField, entry'.getField other = sampleEntryWithParts.getField other) ∧
      (∀ k, k ≠ 0 →
        entries'[k]? = [sampleEntryWithParts, sampleEntry "High" "High" false][k]?) :=
  handleArrayFieldChange_spec
    (sampleData [sampleEntryWithParts, sampleEntry "High" "High" false])
    [sampleEntryWithParts, sampleEntry "High" "High" false] 0 sampleEntryWithParts
    .part_number_replaced [.string "P-1", .string "P-2"] 1 (.string "P-9") rfl rfl rfl
    (by decide)

/-- C15: for a buffer with entries and an entry index `e` in range,
`handleEntryFieldChange(e, f, v)` returns a buffer with the same top-level fields and as
many entries, in which entry `e` has `v` in field `f`, every other scalar field and the
part-number list as before, and every other entry is as before, in place. -/
theorem handleEntryFieldChange_spec (prev : StructuredData) (entries : List LogEntry)
    (e : Nat) (entry : LogEntry) (field : EntryField) (v : JSValue)
    (hentries : prev.log_entries = some entries) (hentry : entries[e]? = some entry) :
    ∃ entries' entry',
      handleEntryFieldChange prev e field v =
        .ok { prev with log_entries := some entries' } ∧
      entries'.length = entries.length ∧
      entries'[e]? = some entry' ∧
      entry'.getField field = v ∧
      (∀ other : EntryField, other ≠ field → entry'.getField other = entry.getField other) ∧
      entry'.part_number_replaced = entry.part_number_replaced ∧
      (∀ k, k ≠ e → entries'[k]? = entries[k]?) := by
  refine ⟨entries.mapIdx (fun index x => if index = e then x.setField field v else x),
    entry.setField field v, ?_, List.length_mapIdx, ?_, getField_setField_same _ _ _,
    fun other hne => getField_setField_other _ _ _ _ hne, part_numbers_setField _ _ _, ?_⟩
  · simp only [handleEntryFieldChange, hentries]
  · rw [List.getElem?_mapIdx, hentry]
    simp
  · intro k hk
    rw [List.getElem?_mapIdx]
    cases entries[k]? with
    | none => rfl
    | some x => simp [hk]

/-- The risk level of the second of two entries is changed. -/
theorem handleEntryFieldChange_spec_witness :
    ∃ entries' entry',
      handleEntryFieldChange
          (sampleData [sampleEntryWithParts, sampleEntry "High" "High" false]) 1
          .risk_level (.string "Low") =
        .ok { sampleData [sampleEntryWithParts, sampleEntry "High" "High" false] with
              log_entries := some entries' } ∧
      entries'.length = [sampleEntryWithParts, sampleEntry "High" "High" false].length ∧
      entries'[1]? = some entry' ∧
      entry'.getField .risk_level = .string "Low" ∧
      (∀ other : EntryField, other ≠ .risk_level →
        entry'.getField other = (sampleEntry "High" "High" false).getField other) ∧
      entry'.part_number_replaced = (sampleEntry "High" "High" false).part_number_replaced ∧
      (∀ k, k ≠ 1 →
        entries'[k]? = [sampleEntryWithParts, sampleEntry "High" "High" false][k]?) :=
  handleEntryFieldChange_spec
    (sampleData [sampleEntryWithParts, sampleEntry "High" "High" false])
    [sampleEntryWithParts, sampleEntry "High" "High" false] 1
    (sampleEntry "High" "High" false) .risk_level (.string "Low") rfl rfl

/-! ## Fetching, searching, clearing and exporting -/

/-- C16: the SET_LOGS transition leaves the store list equal to the response list and
loading false, whatever the prior state; so do a successful `fetchLogs` and a successful
`searchLogs`, whose last transition it is. -/
theorem set_logs_transition (state : State) (L : List MaintenanceLogRecord) :
    (maintenanceLogReducer state (.SET_LOGS L)).logs = L ∧
    (maintenanceLogReducer state (.SET_LOGS L)).loading = false ∧
    (∀ api : Backend, api.getLogs = .ok L →
      (fetchLogs api state).1.logs = L ∧ (fetchLogs api state).1.loading = false) ∧
    (∀ (api : Backend) (registration : String), api.searchLogs registration = .ok L →
      (searchLogs api state registration).1.logs = L ∧
      (searchLogs api state registration).1.loading = false) := by
  refine ⟨rfl, rfl, ?_, ?_⟩
  · intro api hget
    simp [fetchLogs, fetchLogsRun, hget, maintenanceLogReducer]
  · intro api registration hsearch
    simp [searchLogs, searchLogsRun, hsearch, maintenanceLogReducer]

/-- A fetch and a search answered by the serving backend, from a state with a fetch in
flight. -/
theorem set_logs_transition_witness :
    (fetchLogs servingBackend loadingState).1.logs =
      [sampleRecord "a" "N123", sampleRecord "b" "N456"] ∧
    (fetchLogs servingBackend loadingState).1.loading = false ∧
    (searchLogs servingBackend loadingState "N123").1.logs = [sampleRecord "a" "N123"] ∧
    (searchLogs servingBackend loadingState "N123").1.loading = false :=
  ⟨((set_logs_transition loadingState _).2.2.1 servingBackend rfl).1,
   ((set_logs_transition loadingState _).2.2.1 servingBackend rfl).2,
   ((set_logs_transition loadingState _).2.2.2 servingBackend "N123" rfl).1,
   ((set_logs_transition loadingState _).2.2.2 servingBackend "N123" rfl).2⟩

/-- C17: a `fetchLogs`, `fetchLogById` or `searchLogs` whose network call is rejected
has, while the call is in flight, the store in the state SET_LOADING true leaves (loading
true), and then commits SET_ERROR with the operation's message on that state, and so ends
with loading false and the error field holding that message. -/
theorem fetch_failure_transitions (api : Backend) (state : State) :
    (maintenanceLogReducer state (.SET_LOADING true)).loading = true ∧
    (∀ e, api.getLogs = .error e →
      (fetchLogsRun api state).inFlight = maintenanceLogReducer state (.SET_LOADING true) ∧
      (fetchLogsRun api state).inFlight.loading = true ∧
      (fetchLogs api state).1 =
        maintenanceLogReducer (fetchLogsRun api state).inFlight
          (.SET_ERROR "Failed to fetch maintenance logs") ∧
      (fetchLogs api state).1 =
        maintenanceLogReducer (maintenanceLogReducer state (.SET_LOADING true))
          (.SET_ERROR "Failed to fetch maintenance logs") ∧
      (fetchLogs api state).1.loading = false ∧
      (fetchLogs api state).1.error = some "Failed to fetch maintenance logs") ∧
    (∀ logId e, api.getLogById logId = .error e →
      (fetchLogByIdRun api state logId).inFlight =
        maintenanceLogReducer state (.SET_LOADING true) ∧
      (fetchLogByIdRun api state logId).inFlight.loading = true ∧
      (fetchLogById api state logId).1 =
        maintenanceLogReducer (fetchLogByIdRun api state logId).inFlight
          (.SET_ERROR "Failed to load maintenance log") ∧
      (fetchLogById api state logId).1 =
        maintenanceLogReducer (maintenanceLogReducer state (.SET_LOADING true))
          (.SET_ERROR "Failed to load maintenance log") ∧
      (fetchLogById api state logId).1.loading = false ∧
      (fetchLogById api state logId).1.error = some "Failed to load maintenance log") ∧
    (∀ registration e, api.searchLogs registration = .error e →
      (searchLogsRun api state registration).inFlight =
        maintenanceLogReducer state (.SET_LOADING true) ∧
      (searchLogsRun api state registration).inFlight.loading = true ∧
      (searchLogs api state registration).1 =
        maintenanceLogReducer (searchLogsRun api state registration).inFlight
          (.SET_ERROR "Failed to search maintenance logs") ∧
      (searchLogs api state registration).1 =
        maintenanceLogReducer (maintenanceLogReducer state (.SET_LOADING true))
          (.SET_ERROR "Failed to search maintenance logs") ∧
      (searchLogs api state registration).1.loading = false ∧
      (searchLogs api state registration).1.error =
        some "Failed to search maintenance logs") := by
  refine ⟨rfl, ?_, ?_, ?_⟩
  · intro e hget
    simp [fetchLogs, fetchLogsRun, hget, maintenanceLogReducer]
  · intro logId e hget
    simp [fetchLogById, fetchLogByIdRun, hget, maintenanceLogReducer]
  · intro registration e hsearch
    simp [searchLogs, searchLogsRun, hsearch, maintenanceLogReducer]

/-- The three operations against the rejecting backend, from the initial state: loading
is false before, true in flight and false at the end. -/
theorem fetch_failure_transitions_witness :
    initialState.loading = false ∧
    (fetchLogsRun rejectingBackend initialState).inFlight.loading = true ∧
    (fetchLogs rejectingBackend initialState).1.loading = false ∧
    (fetchLogs rejectingBackend initialState).1.error =
      some "Failed to fetch maintenance logs" ∧
    (fetchLogByIdRun rejectingBackend initialState "a").inFlight.loading = true ∧
    (fetchLogById rejectingBackend initialState "a").1.loading = false ∧
    (fetchLogById rejectingBackend initialState "a").1.error =
      some "Failed to load maintenance log" ∧
    (searchLogsRun rejectingBackend initialState "N123").inFlight.loading = true ∧
    (searchLogs rejectingBackend initialState "N123").1.loading = false ∧
    (searchLogs rejectingBackend initialState "N123").1.error =
      some "Failed to search maintenance logs" :=
  ⟨rfl,
   ((fetch_failure_transitions rejectingBackend initialState).2.1 _ rfl).2.1,
   ((fetch_failure_transitions rejectingBackend initialState).2.1 _ rfl).2.2.2.2.1,
   ((fetch_failure_transitions rejectingBackend initialState).2.1 _ rfl).2.2.2.2.2,
   ((fetch_failure_transitions rejectingBackend initialState).2.2.1 "a" _ rfl).2.1,
   ((fetch_failure_transitions rejectingBackend initialState).2.2.1 "a" _ rfl).2.2.2.2.1,
   ((fetch_failure_transitions rejectingBackend initialState).2.2.1 "a" _ rfl).2.2.2.2.2,
   ((fetch_failure_transitions rejectingBackend initialState).2.2.2 "N123" _ rfl).2.1,
   ((fetch_failure_transitions rejectingBackend initialState).2.2.2 "N123" _ rfl).2.2.2.2.1,
   ((fetch_failure_transitions rejectingBackend initialState).2.2.2 "N123" _ rfl).2.2.2.2.2⟩

/-- C18: a `fetchLogById` whose request is answered with the record `r` ends with
"current" equal to `r` and loading false, and with the list it started with. -/
theorem fetchLogById_success (api : Backend) (state : State) (logId : String)
    (r : MaintenanceLogRecord) (hget : api.getLogById logId = .ok r) :
    (fetchLogById api state logId).1.currentLog = some r ∧
    (fetchLogById api state logId).1.loading = false ∧
    (fetchLogById api state logId).1.logs = state.logs := by
  simp [fetchLogById, fetchLogByIdRun, hget, maintenanceLogReducer]

/-- The record "b" fetched while the list holds the record "a". -/
theorem fetchLogById_success_witness :
    (fetchLogById servingBackend { initialState with logs := [sampleRecord "a" "N123"] }
        "b").1.currentLog = some (sampleRecord "b" "N123") ∧
    (fetchLogById servingBackend { initialState with logs := [sampleRecord "a" "N123"] }
        "b").1.loading = false ∧
    (fetchLogById servingBackend { initialState with logs := [sampleRecord "a" "N123"] }
        "b").1.logs = [sampleRecord "a" "N123"] :=
  fetchLogById_success servingBackend { initialState with logs := [sampleRecord "a" "N123"] }
    "b" (sampleRecord "b" "N123") rfl

/-- C19: `clearCurrentLog` yields a state whose "current" is empty and whose list, error,
uploading and analyzing fields are those of the state it started from. -/
theorem clearCurrentLog_frame (state : State) :
    (clearCurrentLog state).currentLog = none ∧
    (clearCurrentLog state).logs = state.logs ∧
    (clearCurrentLog state).error = state.error ∧
    (clearCurrentLog state).uploading = state.uploading ∧
    (clearCurrentLog state).analyzing = state.analyzing :=
  ⟨rfl, rfl, rfl, rfl, rfl⟩

/-- C20, as stated, fails for export: after an `exportLog` whose request is rejected, from
the initial state, the error field holds no message. -/
theorem exportLog_failure_sets_no_error :
    ¬ ∃ msg, holdsMessage (exportLog rejectingBackend initialState "a" "pdf").state msg := by
  rintro ⟨msg, herror, _⟩
  simp [exportLog, rejectingBackend, initialState] at herror

/-- C20, amended: when the network call of `fetchLogs`, `fetchLogById`, `uploadLog` (its
upload request, or its request for the new record), `updateLog`, `deleteLog` or
`searchLogs` is rejected, the error field afterwards holds
that operation's non-empty message; when the call of `exportLog` is rejected, the store
state is the one it started from. -/
theorem failure_sets_error_message (api : Backend) (state : State) :
    (∀ e, api.getLogs = .error e →
      holdsMessage (fetchLogs api state).1 "Failed to fetch maintenance logs") ∧
    (∀ logId e, api.getLogById logId = .error e →
      holdsMessage (fetchLogById api state logId).1 "Failed to load maintenance log") ∧
    (∀ file e, api.postUploadLog file = .error e →
      holdsMessage (uploadLog api state file).1 "Failed to analyze maintenance log") ∧
    (∀ file response e, api.postUploadLog file = .ok response → response.success = true →
      api.getLogById response.log_id = .error e →
      holdsMessage (uploadLog api state file).1 "Failed to analyze maintenance log") ∧
    (∀ logId logData e, api.putLog logId logData = .error e →
      holdsMessage (updateLog api state logId logData).1
        "Failed to update maintenance log") ∧
    (∀ logId e, api.deleteLog logId = .error e →
      holdsMessage (deleteLog api state logId).1 "Failed to delete maintenance log") ∧
    (∀ registration e, api.searchLogs registration = .error e →
      holdsMessage (searchLogs api state registration).1
        "Failed to search maintenance logs") ∧
    (∀ logId format e, api.postExport logId format = .error e →
      (exportLog api state logId format).state = state) := by
  refine ⟨?_, ?_, ?_, ?_, ?_, ?_, ?_, ?_⟩
  · intro e h
    exact ⟨by simp [fetchLogs, fetchLogsRun, h, maintenanceLogReducer], by decide⟩
  · intro logId e h
    exact ⟨by simp [fetchLogById, fetchLogByIdRun, h, maintenanceLogReducer], by decide⟩
  · intro file e h
    exact ⟨by simp [uploadLog, h, maintenanceLogReducer], by decide⟩
  · intro file response e hpost hsuccess hget
    exact ⟨by simp [uploadLog, hpost, hsuccess, hget, maintenanceLogReducer], by decide⟩
  · intro logId logData e h
    exact ⟨by simp [updateLog, h, maintenanceLogReducer], by decide⟩
  · intro logId e h
    exact ⟨by simp [deleteLog, h, maintenanceLogReducer], by decide⟩
  · intro registration e h
    exact ⟨by simp [searchLogs, searchLogsRun, h, maintenanceLogReducer], by decide⟩
  · intro logId format e h
    simp [exportLog, h]

/-- A removal and an export against the rejecting backend, from the initial state. -/
theorem failure_sets_error_message_witness :
    holdsMessage (deleteLog rejectingBackend initialState "a").1
      "Failed to delete maintenance log" ∧
    (exportLog rejectingBackend initialState "a" "pdf").state = initialState :=
  ⟨(failure_sets_error_message rejectingBackend initialState).2.2.2.2.2.1 "a" _ rfl,
   (failure_sets_error_message rejectingBackend initialState).2.2.2.2.2.2.2 "a" "pdf" _ rfl⟩

/-! ## Auxiliary facts about the list handlers -/

theorem filter_enumFrom_append_last {α : Type} (xs : List α) (x : α) (start : Nat) :
    (((xs ++ [x]).enumFrom start).filter (fun p => decide (p.1 ≠ start + xs.length))).map
      (fun p => p.2) = xs := by
  induction xs generalizing start with
  | nil => simp [List.enumFrom]
  | cons a rest ih =>
      have hshift : start + (rest.length + 1) = start + 1 + rest.length := by omega
      have hrest := ih (start + 1)
      simp only [List.cons_append, List.enumFrom_cons, List.length_cons]
      rw [List.filter_cons_of_pos (by simp), List.map_cons]
      simp only [hshift]
      rw [hrest]

/-- Filtering out the last index of a list extended by one item gives the list back. -/
theorem filterByIndex_append_last {α : Type} (xs : List α) (x : α) :
    filterByIndex (fun i => decide (i ≠ xs.length)) (xs ++ [x]) = xs := by
  have h := filter_enumFrom_append_last xs x 0
  simp only [Nat.zero_add] at h
  exact h

/-- The buffer `addArrayItem` gives when entry `e` exists and has the list. -/
theorem addArrayItem_eq (prev : StructuredData) (entries : List LogEntry)
    (e : Nat) (entry : LogEntry) (field : ArrayField) (items : List JSValue)
    (hentries : prev.log_entries = some entries)
    (hentry : entries[e]? = some entry) (hitems : entry.getArray field = some items) :
    addArrayItem prev e field =
      .ok { prev with
            log_entries := some (entries.set e
              (entry.setArray field (items ++ [.string ""]))) } := by
  unfold addArrayItem
  rw [hentries]
  simp only
  rw [arrayMap_at]
  simp only [hentry, hitems]

/-- The buffer `removeArrayItem` gives when entry `e` exists and has the list. -/
theorem removeArrayItem_eq (prev : StructuredData) (entries : List LogEntry)
    (e : Nat) (entry : LogEntry) (field : ArrayField) (items : List JSValue) (i : Nat)
    (hentries : prev.log_entries = some entries)
    (hentry : entries[e]? = some entry) (hitems : entry.getArray field = some items) :
    removeArrayItem prev e field i =
      .ok { prev with
            log_entries := some (entries.set e
              (entry.setArray field (filterByIndex (fun j => decide (j ≠ i)) items))) } := by
  unfold removeArrayItem
  rw [hentries]
  simp only
  rw [arrayMap_at]
  simp only [hentry, hitems]

theorem set_of_getElem? {α : Type} (xs : List α) (e : Nat) (x : α)
    (h : xs[e]? = some x) : xs.set e x = xs := by
  apply List.ext_getElem?
  intro j
  rw [List.getElem?_set]
  split
  · next hj =>
      subst hj
      simp [h, lt_length_of_getElem? h]
  · rfl

theorem setArray_getArray (entry : LogEntry) (field : ArrayField) (items : List JSValue)
    (hitems : entry.getArray field = some items) : entry.setArray field items = entry := by
  cases field
  cases entry
  simp only [LogEntry.getArray] at hitems
  simp [LogEntry.setArray, hitems]

theorem setArray_setArray (entry : LogEntry) (field : ArrayField) (a b : List JSValue) :
    (entry.setArray field a).setArray field b = entry.setArray field b := by
  cases field
  rfl

/-! ## Export, upload surface, image and sidebar -/

/-- C21: `exportLog` leaves the store state as it was, whatever the backend answers; when
the export request is answered, the file name of the saved file is "maintenance_log_",
the id, a dot and the format; when it is rejected, no file is saved. -/
theorem exportLog_file_name (api : Backend) (state : State) (logId format : String) :
    (exportLog api state logId format).state = state ∧
    (∀ blob, api.postExport logId format = .ok blob →
      (exportLog api state logId format).download =
        some ("maintenance_log_" ++ logId ++ "." ++ format)) ∧
    (∀ e, api.postExport logId format = .error e →
      (exportLog api state logId format).download = none) := by
  refine ⟨?_, ?_, ?_⟩
  · unfold exportLog
    cases api.postExport logId format <;> rfl
  · intro blob h
    simp [exportLog, h]
  · intro e h
    simp [exportLog, h]

/-- The record "a" exported as pdf while a fetch is in flight. -/
theorem exportLog_file_name_witness :
    (exportLog servingBackend loadingState "a" "pdf").state = loadingState ∧
    (exportLog servingBackend loadingState "a" "pdf").download =
      some "maintenance_log_a.pdf" :=
  ⟨(exportLog_file_name servingBackend loadingState "a" "pdf").1,
   (exportLog_file_name servingBackend loadingState "a" "pdf").2.1 _ rfl⟩

/-- C22: a drop with a non-empty list of rejected files, whatever its accepted files, sets
the validation error of the upload area, calls `uploadLog` for no file and leaves the
store state as it was. -/
theorem onDrop_rejected (api : Backend) (store : State) (view : UploadAreaState)
    (acceptedFiles : List UploadFile) (rejectedFiles : List FileRejection)
    (hrejected : rejectedFiles ≠ []) :
    (onDrop api store view acceptedFiles rejectedFiles).view.error =
      some "Please upload a valid image file (JPEG, PNG, WebP, TIFF)" ∧
    (onDrop api store view acceptedFiles rejectedFiles).uploads = [] ∧
    (onDrop api store view acceptedFiles rejectedFiles).store = store ∧
    (onDrop api store view acceptedFiles rejectedFiles).view.uploadedFile =
      view.uploadedFile := by
  have hlen : rejectedFiles.length > 0 := List.length_pos.mpr hrejected
  simp [onDrop, hlen]

/-- A drop of an image together with a text file. -/
theorem onDrop_rejected_witness :
    (onDrop servingBackend initialState { uploadedFile := none, error := none }
        [sampleFile] [sampleRejection]).view.error =
      some "Please upload a valid image file (JPEG, PNG, WebP, TIFF)" ∧
    (onDrop servingBackend initialState { uploadedFile := none, error := none }
        [sampleFile] [sampleRejection]).uploads = [] ∧
    (onDrop servingBackend initialState { uploadedFile := none, error := none }
        [sampleFile] [sampleRejection]).store = initialState :=
  have h := onDrop_rejected servingBackend initialState { uploadedFile := none, error := none }
    [sampleFile] [sampleRejection] (by decide)
  ⟨h.1, h.2.1, h.2.2.1⟩

/-- C23: the image URL of the detail view is the fixed text
"http://localhost:8000/api/v1/images/" followed by the encoded file name, whatever base
URL is configured; with the base URL "https://api.example.com/api/v1" configured it is
not that base URL followed by "/images/" and the encoded file name. -/
theorem imageSrc_ignores_base_url :
    (∀ (encodeURIComponent : String → String) (image_filename : String),
      imageSrc encodeURIComponent image_filename =
        API_BASE_URL none ++ "/images/" ++ encodeURIComponent image_filename) ∧
    imageSrc id "scan.png" ≠
      API_BASE_URL (some "https://api.example.com/api/v1") ++ "/images/" ++ id "scan.png" := by
  refine ⟨?_, by decide⟩
  intro encodeURIComponent image_filename
  have hbase : "http://localhost:8000/api/v1/images/" =
      "http://localhost:8000/api/v1" ++ "/images/" := by decide
  simp only [imageSrc, API_BASE_URL]
  rw [hbase]

/-- C24: for a string or absent risk level, the sidebar's `getRiskColor` returns the red
class when the value lower-cases to "high", the yellow class for "medium", the green
class for "low", and the grey class for every other string and for an absent value; so
it returns one of these four classes. -/
theorem sidebar_risk_color (toLowerCase : String → String) :
    (∀ s, toLowerCase s = "high" →
      Sidebar.getRiskColor toLowerCase (.string s) = .ok "text-red-600") ∧
    (∀ s, toLowerCase s = "medium" →
      Sidebar.getRiskColor toLowerCase (.string s) = .ok "text-yellow-600") ∧
    (∀ s, toLowerCase s = "low" →
      Sidebar.getRiskColor toLowerCase (.string s) = .ok "text-green-600") ∧
    (∀ s, toLowerCase s ≠ "high" → toLowerCase s ≠ "medium" → toLowerCase s ≠ "low" →
      Sidebar.getRiskColor toLowerCase (.string s) = .ok "text-gray-400") ∧
    Sidebar.getRiskColor toLowerCase .undefined = .ok "text-gray-400" ∧
    Sidebar.getRiskColor toLowerCase .null = .ok "text-gray-400" ∧
    (∀ riskLevel : JSValue,
      (riskLevel = .undefined ∨ riskLevel = .null ∨ ∃ s, riskLevel = .string s) →
      ∃ colour ∈ ["text-red-600", "text-yellow-600", "text-green-600", "text-gray-400"],
        Sidebar.getRiskColor toLowerCase riskLevel = .ok colour) := by
  refine ⟨?_, ?_, ?_, ?_, rfl, rfl, ?_⟩
  · intro s h
    simp [Sidebar.getRiskColor, h]
  · intro s h
    simp [Sidebar.getRiskColor, h]
  · intro s h
    simp [Sidebar.getRiskColor, h]
  · intro s h1 h2 h3
    simp [Sidebar.getRiskColor, h1, h2, h3]
  · intro riskLevel hshape
    rcases hshape with h | h | ⟨s, h⟩
    · exact ⟨"text-gray-400", by simp, by rw [h]; rfl⟩
    · exact ⟨"text-gray-400", by simp, by rw [h]; rfl⟩
    · subst h
      by_cases h1 : toLowerCase s = "high"
      · exact ⟨"text-red-600", by simp, by simp [Sidebar.getRiskColor, h1]⟩
      · by_cases h2 : toLowerCase s = "medium"
        · exact ⟨"text-yellow-600", by simp, by simp [Sidebar.getRiskColor, h2]⟩
        · by_cases h3 : toLowerCase s = "low"
          · exact ⟨"text-green-600", by simp, by simp [Sidebar.getRiskColor, h3]⟩
          · exact ⟨"text-gray-400", by simp, by simp [Sidebar.getRiskColor, h1, h2, h3]⟩

/-- The values "HIGH", "Medium", "low" and "Critical" under lower-casing of A to Z. -/
theorem sidebar_risk_color_witness :
    Sidebar.getRiskColor asciiLower (.string "HIGH") = .ok "text-red-600" ∧
    Sidebar.getRiskColor asciiLower (.string "Medium") = .ok "text-yellow-600" ∧
    Sidebar.getRiskColor asciiLower (.string "low") = .ok "text-green-600" ∧
    Sidebar.getRiskColor asciiLower (.string "Critical") = .ok "text-gray-400" :=
  ⟨(sidebar_risk_color asciiLower).1 "HIGH" (by decide),
   (sidebar_risk_color asciiLower).2.1 "Medium" (by decide),
   (sidebar_risk_color asciiLower).2.2.1 "low" (by decide),
   (sidebar_risk_color asciiLower).2.2.2.1 "Critical" (by decide) (by decide) (by decide)⟩

/-- C25, as stated, fails: against a backend that lists its records oldest first, a
successful upload from the initial state does not end with the new record "c" at the
head of the list (the refresh has replaced the list by the server's). -/
theorem upload_new_record_not_first :
    ¬ ((uploadLog oldestFirstBackend initialState sampleFile).1.uploading = false ∧
       (uploadLog oldestFirstBackend initialState sampleFile).1.analyzing = false ∧
       (uploadLog oldestFirstBackend initialState sampleFile).1.logs.head? =
         some (sampleRecord "c" "N123") ∧
       (uploadLog oldestFirstBackend initialState sampleFile).1.currentLog =
         some (sampleRecord "c" "N123")) := by
  decide

/-- C25, amended: at the end of a successful upload (upload request answered with
success, new record `r` fetched) uploading, analyzing and loading are false and `r` is
"current"; the list is the list the refresh received when the refresh is answered, and
`r` followed by the prior list when the refresh is rejected. -/
theorem uploadLog_success_state (api : Backend) (state : State) (file : UploadFile)
    (response : UploadResponse) (r : MaintenanceLogRecord)
    (hpost : api.postUploadLog file = .ok response) (hsuccess : response.success = true)
    (hget : api.getLogById response.log_id = .ok r) :
    (uploadLog api state file).1.uploading = false ∧
    (uploadLog api state file).1.analyzing = false ∧
    (uploadLog api state file).1.loading = false ∧
    (uploadLog api state file).1.currentLog = some r ∧
    (∀ L, api.getLogs = .ok L → (uploadLog api state file).1.logs = L) ∧
    (∀ e, api.getLogs = .error e → (uploadLog api state file).1.logs = r :: state.logs) := by
  unfold uploadLog fetchLogs fetchLogsRun
  simp only [hpost, hsuccess, hget, if_true]
  cases hlist : api.getLogs with
  | error e => simp [maintenanceLogReducer]
  | ok L => simp [maintenanceLogReducer]

/-- An upload against the backend that lists its records oldest first. -/
theorem uploadLog_success_state_witness :
    (uploadLog oldestFirstBackend initialState sampleFile).1.uploading = false ∧
    (uploadLog oldestFirstBackend initialState sampleFile).1.analyzing = false ∧
    (uploadLog oldestFirstBackend initialState sampleFile).1.currentLog =
      some (sampleRecord "c" "N123") ∧
    (uploadLog oldestFirstBackend initialState sampleFile).1.logs =
      [sampleRecord "a" "N123", sampleRecord "c" "N123"] :=
  have h := uploadLog_success_state oldestFirstBackend initialState sampleFile
    { success := true, log_id := "c", message := none } (sampleRecord "c" "N123") rfl rfl rfl
  ⟨h.1, h.2.1, h.2.2.2.1, h.2.2.2.2.1 _ rfl⟩

/-! ## Buffer edits and derived values -/

/-- C26: for a buffer with entries and an entry index `e` in range,
`handleEntryFieldChange(e, "is_airworthy", false)` returns a buffer whose overall
airworthiness is false. -/
theorem airworthiness_follows_buffer (prev : StructuredData) (entries : List LogEntry)
    (e : Nat) (entry : LogEntry) (hentries : prev.log_entries = some entries)
    (hentry : entries[e]? = some entry) :
    ∃ buffer, handleEntryFieldChange prev e .is_airworthy (.bool false) = .ok buffer ∧
      getOverallAirworthiness buffer = .ok false := by
  refine ⟨{ prev with
      log_entries := some (entries.mapIdx (fun index x =>
        if index = e then x.setField .is_airworthy (.bool false) else x)) },
    by simp only [handleEntryFieldChange, hentries], ?_⟩
  have hmem : entry.setField .is_airworthy (.bool false) ∈
      entries.mapIdx (fun index x =>
        if index = e then x.setField .is_airworthy (.bool false) else x) := by
    rw [List.mem_iff_getElem?]
    refine ⟨e, ?_⟩
    rw [List.getElem?_mapIdx, hentry]
    simp
  have hall : (entries.mapIdx (fun index x =>
        if index = e then x.setField .is_airworthy (.bool false) else x)).all
      (fun x => x.is_airworthy.truthy) = false := by
    rw [List.all_eq_false]
    exact ⟨_, hmem, by simp [LogEntry.setField, JSValue.truthy]⟩
  simp only [getOverallAirworthiness, hall]

/-- Two airworthy entries, the second of which is marked not airworthy. -/
theorem airworthiness_follows_buffer_witness :
    getOverallAirworthiness
        (sampleData [sampleEntry "Low" "Normal" true, sampleEntry "High" "High" true]) =
      .ok true ∧
    ∃ buffer,
      handleEntryFieldChange
          (sampleData [sampleEntry "Low" "Normal" true, sampleEntry "High" "High" true]) 1
          .is_airworthy (.bool false) = .ok buffer ∧
      getOverallAirworthiness buffer = .ok false :=
  ⟨rfl,
   airworthiness_follows_buffer
    (sampleData [sampleEntry "Low" "Normal" true, sampleEntry "High" "High" true])
    [sampleEntry "Low" "Normal" true, sampleEntry "High" "High" true] 1
    (sampleEntry "High" "High" true) rfl rfl⟩

/-- C27: a submit of the search form calls `searchLogs` exactly when the trimmed term is
not empty, once and with the trimmed term, and the store then ends as that search leaves
it; when the trimmed term is empty nothing is called and the store state, its list
included, is as it was. -/
theorem handleSearch_spec (trim : String → String) (api : Backend) (store : State)
    (searchTerm : String) :
    (trim searchTerm ≠ "" →
      (Sidebar.handleSearch trim api store searchTerm).searches = [trim searchTerm] ∧
      (Sidebar.handleSearch trim api store searchTerm).store =
        (searchLogs api store (trim searchTerm)).1) ∧
    (trim searchTerm = "" →
      (Sidebar.handleSearch trim api store searchTerm).searches = [] ∧
      (Sidebar.handleSearch trim api store searchTerm).store = store ∧
      (Sidebar.handleSearch trim api store searchTerm).store.logs = store.logs) := by
  constructor
  · intro h
    simp [Sidebar.handleSearch, h]
  · intro h
    simp [Sidebar.handleSearch, h]

/-- The terms "  N123 " and "   " under removal of the blanks at both ends. -/
theorem handleSearch_spec_witness :
    (Sidebar.handleSearch trimBlanks servingBackend initialState "  N123 ").searches =
      ["N123"] ∧
    (Sidebar.handleSearch trimBlanks servingBackend initialState "   ").searches = [] ∧
    (Sidebar.handleSearch trimBlanks servingBackend initialState "   ").store =
      initialState :=
  ⟨((handleSearch_spec trimBlanks servingBackend initialState "  N123 ").1 (by decide)).1,
   ((handleSearch_spec trimBlanks servingBackend initialState "   ").2 (by decide)).1,
   ((handleSearch_spec trimBlanks servingBackend initialState "   ").2 (by decide)).2.1⟩

/-- C28: for a buffer with entries, an entry index `e` in range and a list field present on
that entry with `n` items, `addArrayItem(e, f)` goes through and `removeArrayItem(e, f, n)`
on its result gives back the original buffer. -/
theorem add_then_remove_last (prev : StructuredData) (entries : List LogEntry)
    (e : Nat) (entry : LogEntry) (field : ArrayField) (items : List JSValue)
    (hentries : prev.log_entries = some entries)
    (hentry : entries[e]? = some entry) (hitems : entry.getArray field = some items) :
    ∃ added, addArrayItem prev e field = .ok added ∧
      removeArrayItem added e field items.length = .ok prev := by
  refine ⟨_, addArrayItem_eq prev entries e entry field items hentries hentry hitems, ?_⟩
  have he : e < entries.length := lt_length_of_getElem? hentry
  rw [removeArrayItem_eq _ (entries.set e (entry.setArray field (items ++ [.string ""]))) e
    (entry.setArray field (items ++ [.string ""])) field (items ++ [.string ""]) items.length
    rfl (List.getElem?_set_self he) (getArray_setArray _ _ _)]
  rw [filterByIndex_append_last, setArray_setArray, setArray_getArray entry field items hitems]
  simp only [List.set_set]
  rw [set_of_getElem? entries e entry hentry]
  cases prev
  simp only at hentries
  simp [hentries]

/-- An item added to and removed from the two part numbers of the first of two entries. -/
theorem add_then_remove_last_witness :
    ∃ added,
      addArrayItem (sampleData [sampleEntryWithParts, sampleEntry "High" "High" false]) 0
          .part_number_replaced = .ok added ∧
      removeArrayItem added 0 .part_number_replaced
          [JSValue.string "P-1", JSValue.string "P-2"].length =
        .ok (sampleData [sampleEntryWithParts, sampleEntry "High" "High" false]) :=
  add_then_remove_last (sampleData [sampleEntryWithParts, sampleEntry "High" "High" false])
    [sampleEntryWithParts, sampleEntry "High" "High" false] 0 sampleEntryWithParts
    .part_number_replaced [.string "P-1", .string "P-2"] rfl rfl rfl

/-! ## Frame of the busy flags, and the zoom level -/

/-- C29: for an action that is no ADD_LOG, SET_UPLOADING or SET_ANALYZING, the reducer
leaves uploading and analyzing as they were. -/
theorem reducer_keeps_upload_flags (state : State) (action : Action)
    (hadd : ∀ r, action ≠ .ADD_LOG r) (hup : ∀ b, action ≠ .SET_UPLOADING b)
    (han : ∀ b, action ≠ .SET_ANALYZING b) :
    (maintenanceLogReducer state action).uploading = state.uploading ∧
    (maintenanceLogReducer state action).analyzing = state.analyzing := by
  cases action with
  | ADD_LOG r => exact absurd rfl (hadd r)
  | SET_UPLOADING b => exact absurd rfl (hup b)
  | SET_ANALYZING b => exact absurd rfl (han b)
  | SET_LOADING b => exact ⟨rfl, rfl⟩
  | SET_ERROR msg => exact ⟨rfl, rfl⟩
  | SET_LOGS logs => exact ⟨rfl, rfl⟩
  | SET_CURRENT_LOG log => exact ⟨rfl, rfl⟩
  | UPDATE_LOG r => exact ⟨rfl, rfl⟩
  | DELETE_LOG id => exact ⟨rfl, rfl⟩
  | CLEAR_ERROR => exact ⟨rfl, rfl⟩
  | UNKNOWN type => exact ⟨rfl, rfl⟩

/-- An action of unknown type on a state with both flags set. -/
theorem reducer_keeps_upload_flags_witness :
    (maintenanceLogReducer { initialState with uploading := true, analyzing := true }
        (.UNKNOWN "RESET")).uploading = true ∧
    (maintenanceLogReducer { initialState with uploading := true, analyzing := true }
        (.UNKNOWN "RESET")).analyzing = true :=
  reducer_keeps_upload_flags { initialState with uploading := true, analyzing := true }
    (.UNKNOWN "RESET") (fun _ h => by cases h) (fun _ h => by cases h)
    (fun _ h => by cases h)

/-- One click keeps the zoom level a multiple of 0.25 between 0.5 and 3. -/
theorem applyZoom_invariant (view : ImageViewState) (action : ZoomAction)
    (hlow : 1 / 2 ≤ view.zoomLevel) (hhigh : view.zoomLevel ≤ 3)
    (hquarter : ∃ k : ℤ, view.zoomLevel = k / 4) :
    1 / 2 ≤ (applyZoom view action).zoomLevel ∧ (applyZoom view action).zoomLevel ≤ 3 ∧
    ∃ k : ℤ, (applyZoom view action).zoomLevel = k / 4 := by
  obtain ⟨k, hk⟩ := hquarter
  cases action with
  | zoomIn =>
      simp only [applyZoom, handleZoomIn]
      refine ⟨?_, min_le_right _ _, ?_⟩
      · rw [le_min_iff]
        constructor
        · linarith
        · norm_num
      · rcases min_choice (view.zoomLevel + 0.25) 3 with h | h
        · exact ⟨k + 1, by rw [h, hk]; push_cast; norm_num; ring⟩
        · exact ⟨12, by rw [h]; norm_num⟩
  | zoomOut =>
      simp only [applyZoom, handleZoomOut]
      refine ⟨?_, ?_, ?_⟩
      · exact le_trans (by norm_num) (le_max_right _ _)
      · rw [max_le_iff]
        constructor
        · linarith
        · norm_num
      · rcases max_choice (view.zoomLevel - 0.25) 0.5 with h | h
        · exact ⟨k - 1, by rw [h, hk]; push_cast; norm_num; ring⟩
        · exact ⟨2, by rw [h]; norm_num⟩
  | reset =>
      simp only [applyZoom, handleResetZoom]
      exact ⟨by norm_num, by norm_num, ⟨4, by norm_num⟩⟩

/-- A run of clicks keeps the zoom level a multiple of 0.25 between 0.5 and 3. -/
theorem applyZooms_invariant (actions : List ZoomAction) (view : ImageViewState)
    (hlow : 1 / 2 ≤ view.zoomLevel) (hhigh : view.zoomLevel ≤ 3)
    (hquarter : ∃ k : ℤ, view.zoomLevel = k / 4) :
    1 / 2 ≤ (applyZooms view actions).zoomLevel ∧ (applyZooms view actions).zoomLevel ≤ 3 ∧
    ∃ k : ℤ, (applyZooms view actions).zoomLevel = k / 4 := by
  induction actions generalizing view with
  | nil => exact ⟨hlow, hhigh, hquarter⟩
  | cons action rest ih =>
      obtain ⟨h1, h2, h3⟩ := applyZoom_invariant view action hlow hhigh hquarter
      exact ih (applyZoom view action) h1 h2 h3

/-- C30: from the zoom level 1 the mounted view starts with, every finite sequence of
zoom-in, zoom-out and reset clicks leaves the zoom level between 0.5 and 3 (and a
multiple of 0.25); zoom-in adds 0.25 unless that exceeds 3, in which case it gives 3;
zoom-out subtracts 0.25 unless that falls below 0.5, in which case it gives 0.5; neither
moves the pan position; reset gives zoom level 1 and pan position (0, 0). -/
theorem zoom_level_bounds (actions : List ZoomAction) :
    initialImageView.zoomLevel = 1 ∧
    (1 / 2 ≤ (applyZooms initialImageView actions).zoomLevel ∧
      (applyZooms initialImageView actions).zoomLevel ≤ 3 ∧
      ∃ k : ℤ, (applyZooms initialImageView actions).zoomLevel = k / 4) ∧
    (∀ view : ImageViewState,
      (view.zoomLevel + 1 / 4 ≤ 3 → (handleZoomIn view).zoomLevel = view.zoomLevel + 1 / 4) ∧
      (3 ≤ view.zoomLevel + 1 / 4 → (handleZoomIn view).zoomLevel = 3) ∧
      (handleZoomIn view).panPosition = view.panPosition ∧
      (1 / 2 ≤ view.zoomLevel - 1 / 4 →
        (handleZoomOut view).zoomLevel = view.zoomLevel - 1 / 4) ∧
      (view.zoomLevel - 1 / 4 ≤ 1 / 2 → (handleZoomOut view).zoomLevel = 1 / 2) ∧
      (handleZoomOut view).panPosition = view.panPosition ∧
      (handleResetZoom view).zoomLevel = 1 ∧
      (handleResetZoom view).panPosition = (0, 0)) := by
  refine ⟨rfl, ?_, ?_⟩
  · exact applyZooms_invariant actions initialImageView (by norm_num [initialImageView])
      (by norm_num [initialImageView]) ⟨4, by norm_num [initialImageView]⟩
  · intro view
    have hq : (0.25 : ℚ) = 1 / 4 := by norm_num
    have hh : (0.5 : ℚ) = 1 / 2 := by norm_num
    refine ⟨?_, ?_, rfl, ?_, ?_, rfl, rfl, rfl⟩
    · intro h
      simp only [handleZoomIn, hq]
      exact min_eq_left h
    · intro h
      simp only [handleZoomIn, hq]
      exact min_eq_right h
    · intro h
      simp only [handleZoomOut, hq, hh]
      exact max_eq_left h
    · intro h
      simp only [handleZoomOut, hq, hh]
      exact max_eq_right h

end MaintenanceLog
